import Mathlib

/-!
Verification development for the "SwarmIntelligence" (Genesis) agent simulation.

The definitions below are a shallow embedding of the simulation core:
  - client/src/lib/types.ts            (data model)
  - client/src/lib/consciousness.ts    (consciousness evaluator)
  - client/src/lib/evolutionSystem.ts  (mutation engine)
  - agentBehavior.ts                   (per-tick agent update, reproduction)
  - worldResources.ts                  (resource regeneration, cell distribution)
  - stores/useSimulation.ts            (orchestrator slice: catastrophe, setters,
                                        statistics, tick composition)

Modelling conventions:
  - JavaScript numbers are modelled as exact rationals (ℚ).  The one function
    that is genuinely non-rational (Math.pow with a fractional exponent in
    calculateResourceDistribution) is modelled over ℝ.
  - Math.random() is modelled as an oracle stream `Env.rand : ℕ → ℚ` consumed
    in source order; uuidv4() as `Env.uuid : ℕ → String`; Date.now() as the
    constant `Env.now` (all Date.now() calls inside one pass are modelled as
    returning the same instant).  Theorems quantify over all oracles.
  - The transcendental primitives Math.cos / Math.sin / Math.atan2 / Math.PI /
    Math.sqrt-for-normalisation only ever influence velocity and rotation,
    which no verified claim reads; they are modelled as uninterpreted oracle
    functions carried by `Env`.
  - Distance *comparisons* (`Math.sqrt(d2) <= r` and sorting by distance) are
    modelled on squared distances.  Math.sqrt is strictly monotone on [0,∞),
    so for the nonnegative radii used by the repository (perceptionRadius is
    initialised to 10 and mutated into [0,10]; the pairing radius is the
    constant 2) the comparisons agree; the stored distance value itself is
    never read other than through comparisons.
-/

/-! ## Data model (types.ts) -/

structure Vector3D where
  x : ℚ
  y : ℚ
  z : ℚ
deriving DecidableEq, Repr

structure AgentTraits where
  curiosity : ℚ
  socialAffinity : ℚ
  resourceAffinity : ℚ
  exploration : ℚ
  adaptability : ℚ
deriving DecidableEq, Repr

inductive ProximityType where
  | agent
  | resource
  | obstacle
deriving DecidableEq, Repr

/-- Proximity entry.  `distSq` is the square of the euclidean distance stored
by the source (see the modelling conventions above). -/
structure ProximityData where
  ptype : ProximityType
  distSq : ℚ
  direction : Vector3D
  id : String
deriving DecidableEq, Repr

inductive MemoryType where
  | encounter
  | action
  | feedback
  | observation
deriving DecidableEq, Repr

inductive AgentAction where
  | move
  | explore
  | approach
  | avoid
  | consume
  | reproduce
  | communicate
  | idle
deriving DecidableEq, Repr

inductive ResourceType where
  | food
  | water
  | light
deriving DecidableEq, Repr

/-- Tagged variants for the source's `data: any` memory payloads (the spec's
recommended reading of the dynamic payloads actually stored by the code). -/
inductive MemoryData where
  | action (action : AgentAction)
  | consumeData (resourceType : ResourceType) (amount : ℚ)
  | communicate (targetId : String)
  | reproduceData (partnerId : String) (offspringId : String)
  | birth (parent1Id : String) (parent2Id : String)
deriving DecidableEq, Repr

structure Memory where
  timestamp : ℚ
  type : MemoryType
  data : MemoryData
  intensity : ℚ
deriving DecidableEq, Repr

structure ResourceLevels where
  light : ℚ
  food : ℚ
  water : ℚ
deriving DecidableEq, Repr

/-- `visualInput` / `auditoryInput` / `tactileInput` are `any[]` in the source
and are never written to; only their lengths are read.  They are modelled as
lists of `Unit`. -/
structure SensorValues where
  visualInput : List Unit
  auditoryInput : List Unit
  tactileInput : List Unit
  proximity : List ProximityData
  resourceLevels : ResourceLevels
deriving DecidableEq, Repr

structure Agent where
  id : String
  position : Vector3D
  rotation : Vector3D
  velocity : Vector3D
  scale : ℚ
  color : String
  energy : ℚ
  age : ℚ
  lifespan : ℚ
  generation : ℕ
  perceptionRadius : ℚ
  movementSpeed : ℚ
  sensorValues : SensorValues
  memory : List Memory
  reproductionThreshold : ℚ
  mutationRate : ℚ
  consciousnessValue : ℚ
  lastReproductionTime : ℚ
  lastAction : AgentAction
  reproductionCooldown : ℚ
  traits : AgentTraits
deriving DecidableEq, Repr

structure Resource where
  id : String
  type : ResourceType
  position : Vector3D
  amount : ℚ
  regenerationRate : ℚ
  lastRegeneration : ℚ
deriving DecidableEq, Repr

structure Cell where
  position : Vector3D
  resources : ResourceLevels
  occupied : Bool
  temperature : ℚ
  elevation : ℚ
  occupants : List String
deriving DecidableEq, Repr

inductive WeatherCondition where
  | clear
  | rain
  | storm
  | drought
deriving DecidableEq, Repr

structure EnvironmentalParameters where
  temperature : ℚ
  lightLevel : ℚ
  resourceAbundance : ℚ
  resourceDistribution : ℚ
  foodGrowthRate : ℚ
  waterAvailability : ℚ
  weatherCondition : WeatherCondition
  catastropheChance : ℚ
deriving DecidableEq, Repr

structure WorldEvent where
  id : String
  type : String
  timestamp : ℚ
  duration : ℚ
  affectedAgents : List String
  description : String
deriving DecidableEq, Repr

structure SimulationStatistics where
  populationSize : ℕ
  averageConsciousness : ℚ
  maxConsciousness : ℚ
  averageLifespan : ℚ
  totalGenerations : ℕ
  languageComplexity : ℚ
  socialComplexity : ℚ
  resourceConsumption : ℚ
  speciesCount : ℕ
deriving DecidableEq, Repr

inductive TimelineCategory where
  | language
  | social
  | technological
  | extinction
  | population
  | mutation
deriving DecidableEq, Repr

structure TimelineEvent where
  id : String
  timestamp : ℚ
  title : String
  description : String
  type : TimelineCategory
  significance : ℚ
deriving DecidableEq, Repr

structure WorldState where
  time : ℚ
  timeScale : ℚ
  resources : List Resource
  agents : List Agent
  environmentalParameters : EnvironmentalParameters
  events : List WorldEvent
  statistics : SimulationStatistics
  cellGrid : List (List Cell)
  timeElapsed : ℚ
  dayNightCycle : ℚ
deriving DecidableEq, Repr

/-! ## Oracle for the nondeterministic primitives -/

/-- Oracle interpreting the impure / transcendental primitives of the source.
`rand k` is the k-th Math.random() draw, `uuid k` the k-th uuidv4(), `now`
the Date.now() instant; `piQ`, `cosQ`, `sinQ`, `atan2Q`, `sqrtQ` interpret
Math.PI / Math.cos / Math.sin / Math.atan2 / Math.sqrt, which only ever feed
velocity and rotation. -/
structure Env where
  rand : ℕ → ℚ
  uuid : ℕ → String
  now : ℚ
  piQ : ℚ
  cosQ : ℚ → ℚ
  sinQ : ℚ → ℚ
  atan2Q : ℚ → ℚ → ℚ
  sqrtQ : ℚ → ℚ

/-- Counters threading the two oracle streams through a pass (how many
Math.random() draws and uuidv4() calls have happened so far). -/
structure RS where
  r : ℕ
  u : ℕ
deriving DecidableEq, Repr

def drawRand (env : Env) (s : RS) : ℚ × RS :=
  (env.rand s.r, { s with r := s.r + 1 })

def freshUuid (env : Env) (s : RS) : String × RS :=
  (env.uuid s.u, { s with u := s.u + 1 })

/-! ## Vector utilities (agentBehavior.ts) -/

/-- Squared euclidean distance; the source computes
`Math.sqrt(dx*dx + dy*dy + dz*dz)` and only ever compares the result or sorts
by it, so the square is the faithful comparison key. -/
def calculateDistanceSq (pos1 pos2 : Vector3D) : ℚ :=
  let dx := pos2.x - pos1.x
  let dy := pos2.y - pos1.y
  let dz := pos2.z - pos1.z
  dx * dx + dy * dy + dz * dz

def calculateDirection (pos1 pos2 : Vector3D) : Vector3D :=
  { x := pos2.x - pos1.x, y := pos2.y - pos1.y, z := pos2.z - pos1.z }

/-- `normalizeVector`; the square root is the oracle's `sqrtQ` (the result
only ever feeds velocity). -/
def normalizeVector (env : Env) (vector : Vector3D) : Vector3D :=
  let length := env.sqrtQ (vector.x * vector.x + vector.y * vector.y + vector.z * vector.z)
  if length = 0 then { x := 0, y := 0, z := 0 }
  else { x := vector.x / length, y := vector.y / length, z := vector.z / length }

/-! ## Consciousness evaluator (consciousness.ts) -/

def calculateInformationIntegration (agent : Agent) : ℚ :=
  let traitFactor :=
    agent.traits.curiosity * 0.3 +
    agent.traits.adaptability * 0.4 +
    agent.traits.exploration * 0.3
  let perceptualInputs :=
    ([agent.sensorValues.visualInput.length,
      agent.sensorValues.auditoryInput.length,
      agent.sensorValues.tactileInput.length,
      agent.sensorValues.proximity.length].filter (fun v => decide (0 < v))).length
  let perceptionFactor := min 1 ((perceptualInputs : ℚ) / 4)
  let memoryFactor := min 1 ((agent.memory.length : ℚ) / 20)
  let resourceAwareness :=
    (agent.sensorValues.resourceLevels.food +
     agent.sensorValues.resourceLevels.water +
     agent.sensorValues.resourceLevels.light) / 3
  traitFactor * 0.4 + perceptionFactor * 0.3 + memoryFactor * 0.2 + resourceAwareness * 0.1

def calculateSelfModeling (agent : Agent) : ℚ :=
  let selfActionMemories :=
    (agent.memory.filter (fun m =>
      m.type == MemoryType.action || m.type == MemoryType.feedback)).length
  let memoryFactor := min 1 ((selfActionMemories : ℚ) / 15)
  let actionVarietyFactor :=
    if 0 < agent.memory.length then
      (((agent.memory.map (fun m => m.type)).dedup.length : ℚ) / 4)
    else 0
  let generationFactor := min 1 ((agent.generation : ℚ) / 10)
  let ageFactor := min 1 (agent.age / agent.lifespan)
  memoryFactor * 0.3 + actionVarietyFactor * 0.3 + generationFactor * 0.2 + ageFactor * 0.2

def calculateDecisionFreedom (agent : Agent) : ℚ :=
  let energyFactor := min 1 (agent.energy / 100)
  let actionVariety : ℚ := 0.7
  let environmentalFreedom :=
    (agent.sensorValues.resourceLevels.food +
     agent.sensorValues.resourceLevels.water +
     agent.sensorValues.resourceLevels.light) / 3
  let proximityCount :=
    (agent.sensorValues.proximity.filter (fun p => p.ptype == ProximityType.agent)).length
  let socialFreedom := max 0 (1 - (proximityCount : ℚ) / 10)
  energyFactor * 0.3 + actionVariety * 0.3 + environmentalFreedom * 0.2 + socialFreedom * 0.2

structure ConsciousnessComponents where
  integration : ℚ
  selfModeling : ℚ
  decisionFreedom : ℚ
deriving DecidableEq, Repr

def calculateConsciousnessComponents (agent : Agent) : ConsciousnessComponents :=
  { integration := calculateInformationIntegration agent
    selfModeling := calculateSelfModeling agent
    decisionFreedom := calculateDecisionFreedom agent }

def calculateConsciousness (agent : Agent) : ℚ :=
  let components := calculateConsciousnessComponents agent
  let rawConsciousness := components.integration * components.selfModeling * components.decisionFreedom
  min 100 (rawConsciousness * 100)

def checkConsciousnessThreshold (agent : Agent) : Bool :=
  agent.reproductionThreshold ≤ agent.consciousnessValue

/-- Reconcile step of the behaviour engine: store the freshly computed
consciousness score on the agent
(`updatedAgent.consciousnessValue = calculateConsciousness(updatedAgent)`). -/
def refreshConsciousness (agent : Agent) : Agent :=
  { agent with consciousnessValue := calculateConsciousness agent }

/-! ## Hex colour codec (helpers for mutateColor / blendColors)

The source stores colours as 7-character hex strings and converts via
`parseInt(substring, 16)` and `toString(16).padStart(2, '0')`.  Invalid hex
digits (which would give NaN in JS) are mapped to 0; the repository only ever
stores well-formed colours. -/

def hexDigitVal (c : Char) : ℕ :=
  if '0' ≤ c ∧ c ≤ '9' then c.toNat - 48
  else if 'a' ≤ c ∧ c ≤ 'f' then c.toNat - 87
  else if 'A' ≤ c ∧ c ≤ 'F' then c.toNat - 55
  else 0

/-- `parseInt(color.substring(i, i+2), 16)` on the character list of the
colour string. -/
def hexPairAt (cs : List Char) (i : ℕ) : ℕ :=
  16 * hexDigitVal (cs.getD i '0') + hexDigitVal (cs.getD (i + 1) '0')

def hexChar (n : ℕ) : Char :=
  if n < 10 then Char.ofNat (48 + n) else Char.ofNat (87 + n)

/-- `n.toString(16).padStart(2, '0')` for the byte values produced by the
colour functions (all ≤ 255, so exactly two digits). -/
def toHex2 (n : ℕ) : String :=
  String.mk [hexChar (n / 16), hexChar (n % 16)]

/-! ## Evolution / mutation engine (evolutionSystem.ts) -/

/-- Local helper `applyMutation` of `mutateAgent`: with probability
`mutationRate` perturb the value by a uniform delta in [-factor, factor] and
clamp to [0,1]; `factor` defaults to 0.2 at the call sites. -/
def applyMutation (env : Env) (mutationRate value factor : ℚ) (s : RS) : ℚ × RS :=
  let r1 := drawRand env s
  if r1.1 < mutationRate then
    let r2 := drawRand env r1.2
    (max 0 (min 1 (value + (r2.1 * factor * 2 - factor))), r2.2)
  else (value, r1.2)

def mutateColor (env : Env) (color : String) (mutationRate : ℚ) (s : RS) : String × RS :=
  let r0 := drawRand env s
  if mutationRate * 2 < r0.1 then (color, r0.2)
  else
    let cs := color.toList
    let r := hexPairAt cs 1
    let g := hexPairAt cs 3
    let b := hexPairAt cs 5
    let factor := mutationRate * 50
    let r1 := drawRand env r0.2
    let r2 := drawRand env r1.2
    let r3 := drawRand env r2.2
    let rNew := max 0 (min 255 ((r : ℚ) + (r1.1 * factor * 2 - factor)))
    let gNew := max 0 (min 255 ((g : ℚ) + (r2.1 * factor * 2 - factor)))
    let bNew := max 0 (min 255 ((b : ℚ) + (r3.1 * factor * 2 - factor)))
    ("#" ++ toHex2 (round rNew).toNat ++ toHex2 (round gNew).toNat ++ toHex2 (round bNew).toNat, r3.2)

/-- `mutateAgent`.  The `mutations` record fields are computed in source
textual order (each `applyMutation` consumes oracle draws even when, like
`learningRate`, the result is never used). -/
def mutateAgent (env : Env) (agent : Agent) (s : RS) : Agent × RS :=
  let mutationRate := agent.mutationRate
  let m1 := applyMutation env mutationRate (agent.perceptionRadius / 10) 0.2 s
  let sensorCapability := m1.1 * 10
  let m2 := applyMutation env mutationRate (agent.movementSpeed / 0.05) 0.2 m1.2
  let movementCapability := m2.1 * 0.05
  let m3 := applyMutation env mutationRate 0.5 0.2 m2.2
  let m4 := applyMutation env mutationRate 0.5 0.2 m3.2
  let m5 := applyMutation env mutationRate 0.5 0.2 m4.2
  let m6 := applyMutation env mutationRate 1.0 0.1 m5.2
  let m7 := applyMutation env mutationRate agent.mutationRate 0.05 m6.2
  let m8 := applyMutation env mutationRate agent.traits.curiosity 0.2 m7.2
  let m9 := applyMutation env mutationRate agent.traits.socialAffinity 0.2 m8.2
  let m10 := applyMutation env mutationRate agent.traits.resourceAffinity 0.2 m9.2
  let m11 := applyMutation env mutationRate agent.traits.exploration 0.2 m10.2
  let m12 := applyMutation env mutationRate agent.traits.adaptability 0.2 m11.2
  let m13 := mutateColor env agent.color mutationRate m12.2
  ({ agent with
      perceptionRadius := sensorCapability
      movementSpeed := movementCapability
      lifespan := agent.lifespan * m6.1
      mutationRate := m7.1
      traits :=
        { curiosity := m8.1
          socialAffinity := m9.1
          resourceAffinity := m10.1
          exploration := m11.1
          adaptability := m12.1 }
      color := m13.1 }, m13.2)

/-- `blendColors`: channel-wise average of the parents plus a ±10 jitter,
floored and clamped to [0,255]. -/
def blendColors (env : Env) (color1 color2 : String) (s : RS) : String × RS :=
  let cs1 := color1.toList
  let cs2 := color2.toList
  let r1 := hexPairAt cs1 1
  let g1 := hexPairAt cs1 3
  let b1 := hexPairAt cs1 5
  let r2 := hexPairAt cs2 1
  let g2 := hexPairAt cs2 3
  let b2 := hexPairAt cs2 5
  let q1 := drawRand env s
  let q2 := drawRand env q1.2
  let q3 := drawRand env q2.2
  let r := Int.floor (((r1 : ℚ) + (r2 : ℚ)) / 2 + (q1.1 * 20 - 10))
  let g := Int.floor (((g1 : ℚ) + (g2 : ℚ)) / 2 + (q2.1 * 20 - 10))
  let b := Int.floor (((b1 : ℚ) + (b2 : ℚ)) / 2 + (q3.1 * 20 - 10))
  let validR := (max 0 (min 255 r)).toNat
  let validG := (max 0 (min 255 g)).toNat
  let validB := (max 0 (min 255 b)).toNat
  ("#" ++ toHex2 validR ++ toHex2 validG ++ toHex2 validB, q3.2)

/-! ## Memory bookkeeping (agentBehavior.ts, addMemory) -/

/-- Stable insertion used to model the stable in-place `Array.prototype.sort`. -/
def insertSorted {α : Type} (lt : α → α → Bool) (x : α) : List α → List α
  | [] => [x]
  | y :: ys => if lt y x then y :: insertSorted lt x ys else x :: y :: ys

def sortByLt {α : Type} (lt : α → α → Bool) : List α → List α
  | [] => []
  | x :: xs => insertSorted lt x (sortByLt lt xs)

/-- Comparator of `addMemory`'s eviction sort: ascending intensity, ties
broken by ascending timestamp. -/
def memLt (a b : Memory) : Bool :=
  a.intensity < b.intensity || (a.intensity == b.intensity && a.timestamp < b.timestamp)

/-- `addMemory`: when the 50-entry capacity is reached, sort (in place) by
intensity then timestamp and drop the first (lowest-intensity, oldest) entry,
then append the new memory. -/
def addMemory (agent : Agent) (memory : Memory) : Agent :=
  let trimmed :=
    if 50 ≤ agent.memory.length then (sortByLt memLt agent.memory).drop 1
    else agent.memory
  { agent with memory := trimmed ++ [memory] }

/-! ## Resource manager (worldResources.ts) -/

def updateResourceLevels (resources : List Resource) (deltaTime : ℚ) : List Resource :=
  resources.map (fun resource =>
    if resource.type == ResourceType.light then resource
    else
      let timeSinceRegen := deltaTime
      let regenAmount := resource.regenerationRate * timeSinceRegen
      { resource with
          amount := min 100 (resource.amount + regenAmount)
          lastRegeneration := resource.lastRegeneration + deltaTime })

/-! ## Statistics and store operations (stores/useSimulation.ts) -/

/-- `calculateStatistics`.  The species signature string
`round(curiosity*10) ++ "-" ++ round(socialAffinity*10)` is modelled as the
pair of rounded integers (the dash-separated rendering of two integers is
injective, so distinct-count is identical). -/
def calculateStatistics (agents : List Agent) : SimulationStatistics :=
  if agents.length = 0 then
    { populationSize := 0
      averageConsciousness := 0
      maxConsciousness := 0
      averageLifespan := 0
      totalGenerations := 0
      languageComplexity := 0
      socialComplexity := 0
      resourceConsumption := 0
      speciesCount := 0 }
  else
    let totalConsciousness := (agents.map (fun a => a.consciousnessValue)).sum
    let maxConsciousness := ((agents.map (fun a => a.consciousnessValue)).max?).getD 0
    let maxGeneration := ((agents.map (fun a => a.generation)).max?).getD 0
    let avgLifespan := (agents.map (fun a => a.lifespan)).sum / (agents.length : ℚ)
    let languageComplexity := min 1 (((maxGeneration : ℚ) / 10) * (maxConsciousness / 100))
    let socialComplexity := min 1 (((agents.length : ℚ) / 20) * (maxConsciousness / 100))
    let resourceConsumption := (agents.length : ℚ) * 0.5
    let traitSignatures :=
      (agents.map (fun a =>
        (round (a.traits.curiosity * 10), round (a.traits.socialAffinity * 10)))).dedup
    { populationSize := agents.length
      averageConsciousness := totalConsciousness / (agents.length : ℚ)
      maxConsciousness := maxConsciousness
      averageLifespan := avgLifespan
      totalGenerations := maxGeneration
      languageComplexity := languageComplexity
      socialComplexity := socialComplexity
      resourceConsumption := resourceConsumption
      speciesCount := traitSignatures.length }

/-- The store slice the catastrophe trigger mutates: the world plus the
timeline kept next to it in `useSimulation`. -/
structure SimulationStore where
  world : WorldState
  timeline : List TimelineEvent
deriving DecidableEq, Repr

/-- Numeric keys accepted by `setEnvironmentalParameter` (its `value`
parameter is a number; the weather enum has its own setter). -/
inductive EnvParamKey where
  | temperature
  | lightLevel
  | resourceAbundance
  | resourceDistribution
  | foodGrowthRate
  | waterAvailability
  | catastropheChance
deriving DecidableEq, Repr

/-- `setEnvironmentalParameter(param, value)`: the computed-key spread
`{ ...state.world.environmentalParameters, [param]: value }` — the raw value
is stored with no validation or clamping. -/
def setEnvironmentalParameter (world : WorldState) (param : EnvParamKey) (value : ℚ) : WorldState :=
  { world with
      environmentalParameters :=
        match param with
        | EnvParamKey.temperature => { world.environmentalParameters with temperature := value }
        | EnvParamKey.lightLevel => { world.environmentalParameters with lightLevel := value }
        | EnvParamKey.resourceAbundance => { world.environmentalParameters with resourceAbundance := value }
        | EnvParamKey.resourceDistribution => { world.environmentalParameters with resourceDistribution := value }
        | EnvParamKey.foodGrowthRate => { world.environmentalParameters with foodGrowthRate := value }
        | EnvParamKey.waterAvailability => { world.environmentalParameters with waterAvailability := value }
        | EnvParamKey.catastropheChance => { world.environmentalParameters with catastropheChance := value } }

/-- `triggerCatastrophe(type, intensity)` from the store: scales every
resource amount by `(1 - intensity*0.3)` (floored at 0), appends one world
event and one extinction timeline event, and touches nothing else. -/
def triggerCatastrophe (env : Env) (store : SimulationStore) (ctype : String) (intensity : ℚ) : SimulationStore :=
  let event : TimelineEvent :=
    { id := "event-" ++ toString env.now
      timestamp := store.world.time
      title := ctype ++ " Catastrophe"
      description := "A " ++ ctype ++ " catastrophe of intensity " ++ toString intensity ++ " has occurred."
      type := TimelineCategory.extinction
      significance := intensity }
  let worldEvent : WorldEvent :=
    { id := "event-" ++ toString env.now
      type := ctype
      timestamp := store.world.time
      duration := 1000 * intensity
      affectedAgents := store.world.agents.map (fun a => a.id)
      description := ctype ++ " catastrophe of intensity " ++ toString intensity }
  { world :=
      { store.world with
          events := store.world.events ++ [worldEvent]
          resources := store.world.resources.map (fun r =>
            { r with amount := max 0 (r.amount * (1 - intensity * 0.3)) }) }
    timeline := store.timeline ++ [event] }

/-! ## Agent behaviour engine (agentBehavior.ts) -/

/-- Placeholder cell for the total-function modelling of `cellGrid[x][z]`;
never reached when the source's own bounds check passes on a rectangular
grid. -/
def dummyCell : Cell :=
  { position := { x := 0, y := 0, z := 0 }
    resources := { light := 0, food := 0, water := 0 }
    occupied := false
    temperature := 0
    elevation := 0
    occupants := [] }

/-- Placeholder resource for the total-function modelling of
`resources[resourceIndex]`; never reached because the index comes from
`findIndex` succeeding. -/
def dummyResource : Resource :=
  { id := ""
    type := ResourceType.food
    position := { x := 0, y := 0, z := 0 }
    amount := 0
    regenerationRate := 0
    lastRegeneration := 0 }

/-- `updateSensorValues`: rebuild the proximity list (agents first, then
resources, in list order) and refresh the local cell resource snapshot when
the grid coordinates of the agent's position are in bounds (out of range is
silently skipped, leaving the previous snapshot). -/
def updateSensorValues (agent : Agent) (allAgents : List Agent) (resources : List Resource)
    (cellGrid : List (List Cell)) : Agent :=
  let radiusSq := agent.perceptionRadius * agent.perceptionRadius
  let agentProx :=
    (allAgents.filter (fun other =>
      other.id != agent.id &&
      decide (calculateDistanceSq agent.position other.position ≤ radiusSq))).map
      (fun other =>
        ({ ptype := ProximityType.agent
           distSq := calculateDistanceSq agent.position other.position
           direction := calculateDirection agent.position other.position
           id := other.id } : ProximityData))
  let resourceProx :=
    (resources.filter (fun resource =>
      decide (calculateDistanceSq agent.position resource.position ≤ radiusSq))).map
      (fun resource =>
        ({ ptype := ProximityType.resource
           distSq := calculateDistanceSq agent.position resource.position
           direction := calculateDirection agent.position resource.position
           id := resource.id } : ProximityData))
  let x : ℤ := Int.floor ((agent.position.x + 50) / 10)
  let z : ℤ := Int.floor ((agent.position.z + 50) / 10)
  let resourceLevels :=
    if 0 ≤ x ∧ x < (cellGrid.length : ℤ) ∧ 0 ≤ z ∧ z < ((cellGrid.headD []).length : ℤ) then
      let cell := (cellGrid.getD x.toNat []).getD z.toNat dummyCell
      ({ food := cell.resources.food
         water := cell.resources.water
         light := cell.resources.light } : ResourceLevels)
    else agent.sensorValues.resourceLevels
  { agent with
      sensorValues :=
        { agent.sensorValues with
            proximity := agentProx ++ resourceProx
            resourceLevels := resourceLevels } }

/-- `decideAction`: the priority-ordered heuristic policy.  Each
`Math.random()` comparison draws from the oracle exactly when the source
reaches it. -/
def decideAction (env : Env) (agent : Agent) (allAgents : List Agent) (resources : List Resource)
    (s : RS) : AgentAction × RS :=
  if agent.energy < 30 then
    let nearbyFood := agent.sensorValues.proximity.find? (fun (p : ProximityData) =>
      p.ptype == ProximityType.resource &&
      (match resources.find? (fun (r : Resource) => r.id == p.id) with
       | some r => r.type == ResourceType.food
       | none => false))
    match nearbyFood with
    | some _ => (AgentAction.approach, s)
    | none => (AgentAction.explore, s)
  else if agent.reproductionThreshold ≤ agent.consciousnessValue ∧
          agent.lastReproductionTime + agent.reproductionCooldown < agent.age then
    match agent.sensorValues.proximity.find? (fun p => p.ptype == ProximityType.agent) with
    | some nearbyAgent =>
      (match allAgents.find? (fun a => a.id == nearbyAgent.id) with
       | some partner =>
         if partner.reproductionThreshold ≤ partner.consciousnessValue ∧
            partner.lastReproductionTime + partner.reproductionCooldown < partner.age then
           (AgentAction.reproduce, s)
         else (AgentAction.approach, s)
       | none => (AgentAction.approach, s))
    | none => (AgentAction.explore, s)
  else
    let r1 := drawRand env s
    if r1.1 < agent.traits.curiosity * 0.3 then (AgentAction.explore, r1.2)
    else
      let r2 := drawRand env r1.2
      let nearbyAgent := agent.sensorValues.proximity.find? (fun p => p.ptype == ProximityType.agent)
      if r2.1 < agent.traits.socialAffinity * 0.3 ∧ nearbyAgent.isSome then
        (AgentAction.approach, r2.2)
      else
        let r3 := drawRand env r2.2
        let nearbyResource := agent.sensorValues.proximity.find? (fun p => p.ptype == ProximityType.resource)
        if r3.1 < agent.traits.resourceAffinity * 0.3 ∧ nearbyResource.isSome then
          (AgentAction.approach, r3.2)
        else
          let r4 := drawRand env r3.2
          if r4.1 < 0.7 then (AgentAction.explore, r4.2) else (AgentAction.idle, r4.2)

/-- Ascending-distance comparator of the in-place proximity sort used by
approach/avoid (squared distances sort identically to distances). -/
def proxLt (a b : ProximityData) : Bool :=
  a.distSq < b.distSq

/-- `performAction`: sets `lastAction`, runs the action-specific effect (the
approach/avoid in-place sort of the proximity list is retained on the agent,
matching the source's mutation), then applies velocity to position, clamps to
the world bounds [-50,50] and updates the yaw rotation. -/
def performAction (env : Env) (agent0 : Agent) (action : AgentAction) (resources : List Resource)
    (deltaTime : ℚ) (s : RS) : Agent × List Resource × RS :=
  let agent := { agent0 with lastAction := action }
  let step :=
    match action with
    | AgentAction.move =>
      let rx := drawRand env s
      let rz := drawRand env rx.2
      ({ agent with velocity :=
          { x := (rx.1 * 2 - 1) * agent.movementSpeed
            y := 0
            z := (rz.1 * 2 - 1) * agent.movementSpeed } }, resources, rz.2)
    | AgentAction.explore =>
      let rd := drawRand env s
      let angle := rd.1 * env.piQ * 2
      ({ agent with velocity :=
          { x := env.cosQ angle * agent.movementSpeed
            y := 0
            z := env.sinQ angle * agent.movementSpeed } }, resources, rd.2)
    | AgentAction.approach =>
      let sorted := sortByLt proxLt agent.sensorValues.proximity
      let agent' := { agent with sensorValues := { agent.sensorValues with proximity := sorted } }
      (match sorted.head? with
       | some nearest =>
         let normalizedDir := normalizeVector env nearest.direction
         ({ agent' with velocity :=
             { x := normalizedDir.x * agent.movementSpeed
               y := 0
               z := normalizedDir.z * agent.movementSpeed } }, resources, s)
       | none => (agent', resources, s))
    | AgentAction.avoid =>
      let sorted := sortByLt proxLt agent.sensorValues.proximity
      let agent' := { agent with sensorValues := { agent.sensorValues with proximity := sorted } }
      (match sorted.head? with
       | some threat =>
         let normalizedDir := normalizeVector env threat.direction
         ({ agent' with velocity :=
             { x := -normalizedDir.x * agent.movementSpeed
               y := 0
               z := -normalizedDir.z * agent.movementSpeed } }, resources, s)
       | none => (agent', resources, s))
    | AgentAction.consume =>
      (match agent.sensorValues.proximity.find? (fun (p : ProximityData) => p.ptype == ProximityType.resource) with
       | some nearbyFood =>
         (match resources.findIdx? (fun (r : Resource) => r.id == nearbyFood.id) with
          | some resourceIndex =>
            let resource := resources.getD resourceIndex dummyResource
            let amountConsumed := min resource.amount 10
            let resources' := resources.set resourceIndex
              { resource with amount := resource.amount - amountConsumed }
            let agent' := { agent with energy := min 100 (agent.energy + amountConsumed * 5) }
            (addMemory agent'
              { timestamp := env.now
                type := MemoryType.action
                data := MemoryData.consumeData resource.type amountConsumed
                intensity := 0.7 }, resources', s)
          | none => (agent, resources, s))
       | none => (agent, resources, s))
    | AgentAction.reproduce => (agent, resources, s)
    | AgentAction.communicate =>
      (match agent.sensorValues.proximity.find? (fun (p : ProximityData) => p.ptype == ProximityType.agent) with
       | some nearbyAgent =>
         (addMemory agent
           { timestamp := env.now
             type := MemoryType.action
             data := MemoryData.communicate nearbyAgent.id
             intensity := 0.6 }, resources, s)
       | none => (agent, resources, s))
    | AgentAction.idle =>
      ({ agent with velocity := { x := 0, y := 0, z := 0 } }, resources, s)
  let agent1 := step.1
  let px := max (-50) (min 50 (agent1.position.x + agent1.velocity.x * deltaTime))
  let pz := max (-50) (min 50 (agent1.position.z + agent1.velocity.z * deltaTime))
  let agent2 := { agent1 with position := { x := px, y := agent1.position.y, z := pz } }
  let agent3 :=
    if agent2.velocity.x ≠ 0 ∨ agent2.velocity.z ≠ 0 then
      { agent2 with rotation :=
          { agent2.rotation with y := env.atan2Q agent2.velocity.x agent2.velocity.z } }
    else agent2
  (agent3, step.2.1, step.2.2)

/-- Aging plus the metabolic energy cost applied at the top of the live
branch of the `updateAgents` loop body. -/
def agedAgent (agent : Agent) (deltaTime : ℚ) : Agent :=
  let updatedAgent0 := { agent with age := agent.age + deltaTime }
  { updatedAgent0 with energy := updatedAgent0.energy - 0.1 * deltaTime }

/-- Aging, metabolic cost, sensing, decision, action and consciousness
reconciliation for one live agent — the body of the `updateAgents` loop
between its two death checks. -/
def liveUpdateAgent (env : Env) (allAgents : List Agent) (cellGrid : List (List Cell))
    (deltaTime : ℚ) (agent : Agent) (resources : List Resource) (s : RS) :
    Agent × List Resource × RS :=
  let updatedAgent2 := updateSensorValues (agedAgent agent deltaTime) allAgents resources cellGrid
  let da := decideAction env updatedAgent2 allAgents resources s
  let action := da.1
  let pa := performAction env updatedAgent2 action resources deltaTime da.2
  let updatedAgent4 :=
    if action ≠ AgentAction.idle then
      addMemory pa.1
        { timestamp := env.now
          type := MemoryType.action
          data := MemoryData.action action
          intensity := 0.5 }
    else pa.1
  (refreshConsciousness updatedAgent4, pa.2.1, pa.2.2)

/-- One iteration of the `updateAgents` loop body for a single agent:
start-of-tick energy death check, live update, old-age death check. -/
def stepAgent (env : Env) (allAgents : List Agent) (cellGrid : List (List Cell)) (deltaTime : ℚ)
    (agent : Agent) (resources : List Resource) (s : RS) :
    Option Agent × List WorldEvent × List Resource × RS :=
  if agent.energy ≤ 0 then
    let u1 := freshUuid env s
    (none,
     [{ id := u1.1
        type := "death"
        timestamp := env.now
        duration := 0
        affectedAgents := [agent.id]
        description := "Agent " ++ agent.id ++ " died at age " ++ toString agent.age }],
     resources, u1.2)
  else
    let lu := liveUpdateAgent env allAgents cellGrid deltaTime agent resources s
    if lu.1.lifespan ≤ lu.1.age then
      let u2 := freshUuid env lu.2.2
      (none,
       [{ id := u2.1
          type := "death"
          timestamp := env.now
          duration := 0
          affectedAgents := [agent.id]
          description := "Agent " ++ agent.id ++ " died of old age at " ++ toString lu.1.age }],
       lu.2.1, u2.2)
    else
      (some lu.1, [], lu.2.1, lu.2.2)

def updateAgentsGo (env : Env) (allAgents : List Agent) (cellGrid : List (List Cell)) (deltaTime : ℚ) :
    List Agent → List Resource → RS → (List Agent × List WorldEvent × List Resource × RS)
  | [], resources, s => ([], [], resources, s)
  | agent :: rest, resources, s =>
    let st := stepAgent env allAgents cellGrid deltaTime agent resources s
    let go := updateAgentsGo env allAgents cellGrid deltaTime rest st.2.2.1 st.2.2.2
    ((match st.1 with
      | some a => a :: go.1
      | none => go.1), st.2.1 ++ go.2.1, go.2.2.1, go.2.2.2)

structure UpdateAgentsResult where
  updatedAgents : List Agent
  newAgents : List Agent
  events : List WorldEvent
  resourcesOut : List Resource
deriving DecidableEq, Repr

/-- `updateAgents`: the agent update pass.  The source mutates the shared
`resources` array in place (via consume); the model returns it as
`resourcesOut`.  Sensing runs against the `agents` argument snapshot; the
`environmentalParameters` argument is accepted but, as in the source body,
never read. -/
def updateAgents (env : Env) (agents : List Agent) (resources : List Resource)
    (environmentalParameters : EnvironmentalParameters) (cellGrid : List (List Cell))
    (deltaTime : ℚ) (s : RS) : UpdateAgentsResult × RS :=
  let go := updateAgentsGo env agents cellGrid deltaTime agents resources s
  ({ updatedAgents := go.1
     newAgents := []
     events := go.2.1
     resourcesOut := go.2.2.1 }, go.2.2.2)

/-! ## Reproduction pass (agentBehavior.ts) -/

def createOffspring (env : Env) (parent1 parent2 : Agent) (s : RS) : Agent × RS :=
  let position : Vector3D :=
    { x := (parent1.position.x + parent2.position.x) / 2
      y := 0
      z := (parent1.position.z + parent2.position.z) / 2 }
  let generation := max parent1.generation parent2.generation + 1
  let baseTrait := fun (trait1 trait2 : ℚ) => (trait1 + trait2) / 2
  let u0 := freshUuid env s
  let bc := blendColors env parent1.color parent2.color u0.2
  let offspring : Agent :=
    { id := u0.1
      position := position
      rotation := { x := 0, y := 0, z := 0 }
      velocity := { x := 0, y := 0, z := 0 }
      scale := 0.7
      color := bc.1
      energy := 50
      age := 0
      lifespan := (parent1.lifespan + parent2.lifespan) / 2 * 1.1
      generation := generation
      perceptionRadius := (parent1.perceptionRadius + parent2.perceptionRadius) / 2
      movementSpeed := (parent1.movementSpeed + parent2.movementSpeed) / 2
      sensorValues :=
        { visualInput := []
          auditoryInput := []
          tactileInput := []
          proximity := []
          resourceLevels := { light := 0, food := 0, water := 0 } }
      memory := []
      reproductionThreshold := (parent1.reproductionThreshold + parent2.reproductionThreshold) / 2
      mutationRate := (parent1.mutationRate + parent2.mutationRate) / 2
      consciousnessValue := 0
      lastReproductionTime := 0
      lastAction := AgentAction.idle
      reproductionCooldown := (parent1.reproductionCooldown + parent2.reproductionCooldown) / 2
      traits :=
        { curiosity := baseTrait parent1.traits.curiosity parent2.traits.curiosity
          socialAffinity := baseTrait parent1.traits.socialAffinity parent2.traits.socialAffinity
          resourceAffinity := baseTrait parent1.traits.resourceAffinity parent2.traits.resourceAffinity
          exploration := baseTrait parent1.traits.exploration parent2.traits.exploration
          adaptability := baseTrait parent1.traits.adaptability parent2.traits.adaptability } }
  let mo := mutateAgent env offspring bc.2
  let mutatedOffspring1 :=
    { mo.1 with consciousnessValue := calculateConsciousness mo.1 }
  let mutatedOffspring2 :=
    addMemory mutatedOffspring1
      { timestamp := env.now
        type := MemoryType.observation
        data := MemoryData.birth parent1.id parent2.id
        intensity := 1.0 }
  (mutatedOffspring2, mo.2)

/-- Split a list at the first element satisfying `p`. -/
def splitFirst {α : Type} (p : α → Bool) : List α → Option (List α × α × List α)
  | [] => none
  | x :: xs =>
    if p x then some ([], x, xs)
    else
      match splitFirst p xs with
      | none => none
      | some (pre, b, post) => some (x :: pre, b, post)

theorem splitFirst_length {α : Type} (p : α → Bool) :
    ∀ (l : List α) pre b post, splitFirst p l = some (pre, b, post) →
      pre.length + post.length + 1 = l.length := by
  intro l
  induction l with
  | nil => intro pre b post h; simp [splitFirst] at h
  | cons x xs ih =>
    intro pre b post h
    by_cases hx : p x
    · simp [splitFirst, hx] at h
      obtain ⟨h1, _, h3⟩ := h
      subst h1; subst h3
      simp
    · simp [splitFirst, hx] at h
      cases hsp : splitFirst p xs with
      | none => rw [hsp] at h; simp at h
      | some triple =>
        obtain ⟨pre2, b2, post2⟩ := triple
        rw [hsp] at h
        simp at h
        obtain ⟨h1, h2, h3⟩ := h
        have := ih pre2 b2 post2 hsp
        subst h1; subst h3
        simp [List.length_cons]
        omega

/-- The greedy first-found pairing loop of `reproduceAgents`.  Processing the
list head and removing its first in-range partner from the remainder is
exactly the source's nested index loop with its `includes`-based skipping of
already-paired agents: when the outer loop reaches an index, the agents it may
still pair with are precisely the later, not-yet-paired ones. -/
def pairUpGo (env : Env) (currentTime : ℚ) :
    List Agent → RS → (List Agent × List Agent × RS)
  | [], s => ([], [], s)
  | agent1 :: rest, s =>
    match h : splitFirst (fun agent2 =>
        decide (calculateDistanceSq agent1.position agent2.position ≤ 4)) rest with
    | none => pairUpGo env currentTime rest s
    | some (pre, agent2, post) =>
      let co := createOffspring env agent1 agent2 s
      let agent1' :=
        addMemory
          { agent1 with
              lastReproductionTime := currentTime
              energy := max 10 (agent1.energy - 20) }
          { timestamp := currentTime
            type := MemoryType.action
            data := MemoryData.reproduceData agent2.id co.1.id
            intensity := 0.9 }
      let agent2' :=
        addMemory
          { agent2 with
              lastReproductionTime := currentTime
              energy := max 10 (agent2.energy - 20) }
          { timestamp := currentTime
            type := MemoryType.action
            data := MemoryData.reproduceData agent1.id co.1.id
            intensity := 0.9 }
      let rec2 := pairUpGo env currentTime (pre ++ post) co.2
      (agent1' :: agent2' :: rec2.1, co.1 :: rec2.2.1, rec2.2.2)
termination_by l s => l.length
decreasing_by
  · simp
  · have hl := splitFirst_length _ rest _ _ _ h
    simp [List.length_append, List.length_cons]
    omega

/-- `reproduceAgents`: filter the ready agents, run the greedy pairing, then
rebuild the agent list replacing each agent by its updated copy when its id
occurs among the reproduced parents. -/
def reproduceAgents (env : Env) (agents : List Agent) (currentTime : ℚ) (s : RS) :
    (List Agent × List Agent) × RS :=
  let readyAgents := agents.filter (fun agent =>
    decide (agent.reproductionThreshold ≤ agent.consciousnessValue) &&
    (agent.lastAction == AgentAction.reproduce) &&
    decide (agent.lastReproductionTime + agent.reproductionCooldown < agent.age))
  let pu := pairUpGo env currentTime readyAgents s
  ((agents.map (fun agent => ((pu.1.find? (fun a => a.id == agent.id)).getD agent)),
    pu.2.1), pu.2.2)

/-- The agent-related slice of one `updateSimulation` tick: the agent update
pass followed by the reproduction pass (run at the pre-advance world time),
returning `[...reproducedAgents, ...newAgents, ...offspringAgents]`. -/
def tickAgentPasses (env : Env) (world : WorldState) (deltaTime : ℚ) (s : RS) : List Agent :=
  let ua :=
    updateAgents env world.agents world.resources world.environmentalParameters
      world.cellGrid deltaTime s
  let ra := reproduceAgents env ua.1.updatedAgents world.time ua.2
  ra.1.1 ++ ua.1.newAgents ++ ra.1.2

/-! ## Cell resource distribution (worldResources.ts, calculateResourceDistribution)

`calculateResourceDistribution` applies `Math.pow` with the fractional
exponent `1 + (resourceDistribution - 0.5) * 2`, which is not rational
arithmetic; this single function is therefore modelled over ℝ (with `^` the
real power `Real.rpow`).  Only the per-cell resource triple is read and
written by the source, so cells are modelled by that triple. -/

structure RCell where
  food : ℝ
  water : ℝ
  light : ℝ

/-- Weather multipliers and abundance/distribution transform for one cell of
the grid copy. -/
noncomputable def distributeCell (environmentalParameters : EnvironmentalParameters)
    (cell : RCell) : RCell :=
  let weatherImpact : RCell :=
    match environmentalParameters.weatherCondition with
    | WeatherCondition.rain => { food := 1, water := 1.5, light := 0.7 }
    | WeatherCondition.storm => { food := 0.8, water := 2.0, light := 0.3 }
    | WeatherCondition.drought => { food := 0.6, water := 0.3, light := 1.2 }
    | WeatherCondition.clear => { food := 1, water := 1, light := 1 }
  let resourceAbundance : ℝ := (environmentalParameters.resourceAbundance : ℚ)
  let baseFood := cell.food * resourceAbundance
  let baseWater := cell.water * resourceAbundance
  let baseLight := cell.light
  let food1 := min 1 (baseFood * weatherImpact.food)
  let water1 := min 1 (baseWater * weatherImpact.water)
  let light1 := min 1 (baseLight * weatherImpact.light)
  if 0.5 < environmentalParameters.resourceDistribution then
    let amplifyFactor : ℝ := 1 + (((environmentalParameters.resourceDistribution : ℚ) : ℝ) - 0.5) * 2
    { food := food1 ^ amplifyFactor, water := water1 ^ amplifyFactor, light := light1 }
  else
    let evenFactor : ℝ := 1 - ((environmentalParameters.resourceDistribution : ℚ) : ℝ)
    { food := food1 * (1 - evenFactor) + 0.5 * evenFactor
      water := water1 * (1 - evenFactor) + 0.5 * evenFactor
      light := light1 }

noncomputable def calculateResourceDistribution (cellGrid : List (List RCell))
    (environmentalParameters : EnvironmentalParameters) : List (List RCell) :=
  cellGrid.map (fun row => row.map (distributeCell environmentalParameters))

/-! ## General helper lemmas -/

theorem zip_map_self {α β : Type} (f : α → β) :
    ∀ (l : List α), ∀ p ∈ l.zip (l.map f), p.2 = f p.1 := by
  intro l
  induction l with
  | nil => simp
  | cons x xs ih =>
    intro p hp
    simp only [List.map_cons, List.zip_cons_cons, List.mem_cons] at hp
    rcases hp with h | h
    · subst h; rfl
    · exact ih p h

theorem insertSorted_length {α : Type} (lt : α → α → Bool) (x : α) :
    ∀ (l : List α), (insertSorted lt x l).length = l.length + 1 := by
  intro l
  induction l with
  | nil => rfl
  | cons y ys ih =>
    by_cases h : lt y x
    · simp [insertSorted, h, ih]
    · simp [insertSorted, h]

theorem sortByLt_length {α : Type} (lt : α → α → Bool) :
    ∀ (l : List α), (sortByLt lt l).length = l.length := by
  intro l
  induction l with
  | nil => rfl
  | cons x xs ih => simp [sortByLt, insertSorted_length, ih]

/-- `addMemory` keeps the 50-entry bound (and never removes more than one
entry). -/
theorem addMemory_length_le (agent : Agent) (m : Memory) (h : agent.memory.length ≤ 50) :
    (addMemory agent m).memory.length ≤ 50 := by
  unfold addMemory
  by_cases hc : 50 ≤ agent.memory.length
  · have h50 : agent.memory.length = 50 := le_antisymm h hc
    simp [hc, sortByLt_length, h50]
  · simp [hc]
    omega

theorem addMemory_fields (agent : Agent) (m : Memory) :
    (addMemory agent m).id = agent.id ∧
    (addMemory agent m).energy = agent.energy ∧
    (addMemory agent m).traits = agent.traits ∧
    (addMemory agent m).consciousnessValue = agent.consciousnessValue ∧
    (addMemory agent m).age = agent.age ∧
    (addMemory agent m).lifespan = agent.lifespan ∧
    (addMemory agent m).position = agent.position ∧
    (addMemory agent m).generation = agent.generation ∧
    (addMemory agent m).lastReproductionTime = agent.lastReproductionTime := by
  unfold addMemory
  by_cases hc : 50 ≤ agent.memory.length <;> simp [hc]

/-! ## C10 — statistics of the empty population -/

/-- C10: for the empty agent list, `calculateStatistics` returns the record
with every field equal to 0 (no max or mean of an empty collection is
taken). -/
theorem calculateStatistics_empty :
    calculateStatistics [] =
      { populationSize := 0
        averageConsciousness := 0
        maxConsciousness := 0
        averageLifespan := 0
        totalGenerations := 0
        languageComplexity := 0
        socialComplexity := 0
        resourceConsumption := 0
        speciesCount := 0 } := rfl

/-! ## C9 — purity / idempotence of the consciousness evaluator -/

/-- C9: `calculateConsciousness` is a pure function of the agent snapshot: it
does not read the stored `consciousnessValue` (so re-evaluating after the
reconcile step assigns the score is idempotent), and the reconcile step
`refreshConsciousness` is itself idempotent.  Determinism and absence of side
effects are inherent in the functional embedding: the source function only
reads agent fields and writes nothing. -/
theorem calculateConsciousness_pure :
    ∀ (agent : Agent) (v : ℚ),
      refreshConsciousness (refreshConsciousness agent) = refreshConsciousness agent ∧
      calculateConsciousness { agent with consciousnessValue := v } =
        calculateConsciousness agent := by
  intro agent v
  exact ⟨rfl, rfl⟩

/-! ## C8 — environmental parameter setter performs no validation -/

/-- C8: `setEnvironmentalParameter` stores the given value verbatim: the
out-of-range values −1 for `resourceAbundance` (a negative abundance) and 2
for `catastropheChance` (a probability above 1) reach the stored
`EnvironmentalParameters` unrejected and unclamped, contradicting the
claimed setter-boundary validation. -/
theorem setEnvironmentalParameter_no_validation :
    ∀ (world : WorldState),
      (setEnvironmentalParameter world EnvParamKey.resourceAbundance
        (-1)).environmentalParameters.resourceAbundance = -1 ∧
      (setEnvironmentalParameter world EnvParamKey.catastropheChance
        2).environmentalParameters.catastropheChance = 2 := by
  intro world
  exact ⟨rfl, rfl⟩

/-! ## C6 — resource regeneration -/

/-- The "no resource's amount ever decreases" property asserted by claim C6,
stated in the claim's own terms over the position-wise pairing of the input
and output lists. -/
def resourceAmountsNondecreasing (resources : List Resource) (deltaTime : ℚ) : Prop :=
  ∀ pair ∈ resources.zip (updateResourceLevels resources deltaTime),
    pair.1.amount ≤ pair.2.amount

/-- A water resource with amount 150 — inside the 70–150 range the world
initialiser draws water amounts from. -/
def overfullWater : Resource :=
  { id := "water-1"
    type := ResourceType.water
    position := { x := 0, y := 0, z := 0 }
    amount := 150
    regenerationRate := 0.02
    lastRegeneration := 0 }

/-- C6 counterexample: regeneration CAN decrease an amount.  A water resource
with amount 150 (a value the initialiser can produce) is clamped down to 100
by `min 100 (amount + rate·dt)`, so the claim's "no resource's amount ever
decreases" fails. -/
theorem updateResourceLevels_can_decrease :
    ¬ resourceAmountsNondecreasing [overfullWater] 1 := by
  unfold resourceAmountsNondecreasing
  with_unfolding_all decide

/-- C6 (amended): for `dt > 0`, every food/water resource is regenerated to
exactly `min 100 (amount + regenerationRate·dt)` (a strict increase when
`amount < 100` and the rate is positive, and never a decrease when
`amount ≤ 100` and the rate is nonnegative), light resources are returned
unchanged, and no resource is removed. -/
theorem updateResourceLevels_regeneration :
    ∀ (resources : List Resource) (deltaTime : ℚ), 0 < deltaTime →
      (updateResourceLevels resources deltaTime).length = resources.length ∧
      ∀ pair ∈ resources.zip (updateResourceLevels resources deltaTime),
        (pair.1.type = ResourceType.light → pair.2 = pair.1) ∧
        (pair.1.type ≠ ResourceType.light →
          pair.2.amount = min 100 (pair.1.amount + pair.1.regenerationRate * deltaTime) ∧
          pair.2.id = pair.1.id ∧
          (pair.1.amount < 100 → 0 < pair.1.regenerationRate →
            pair.1.amount < pair.2.amount) ∧
          (pair.1.amount ≤ 100 → 0 ≤ pair.1.regenerationRate →
            pair.1.amount ≤ pair.2.amount)) := by
  intro resources deltaTime hdt
  constructor
  · simp [updateResourceLevels]
  · intro pair hpair
    have hp2 := zip_map_self _ resources pair hpair
    rw [hp2]
    constructor
    · intro hlight
      have hb : (pair.1.type == ResourceType.light) = true := by
        simp [hlight]
      simp [hb]
    · intro hlight
      have hne : (pair.1.type == ResourceType.light) = false := by
        rw [beq_eq_false_iff_ne]
        exact hlight
      refine ⟨by simp [hne], by simp [hne], ?_, ?_⟩
      · intro hlt hrate
        simp only [hne, Bool.false_eq_true, if_false]
        have hadd : pair.1.amount < pair.1.amount + pair.1.regenerationRate * deltaTime := by
          nlinarith
        exact lt_min hlt hadd
      · intro hle hrate
        simp only [hne, Bool.false_eq_true, if_false]
        have hadd : pair.1.amount ≤ pair.1.amount + pair.1.regenerationRate * deltaTime := by
          nlinarith
        exact le_min hle hadd

/-- A concrete regenerating food resource used to instantiate the amended C6
theorem. -/
def regrowingFood : Resource :=
  { id := "food-1"
    type := ResourceType.food
    position := { x := 0, y := 0, z := 0 }
    amount := 50
    regenerationRate := 0.01
    lastRegeneration := 0 }

theorem updateResourceLevels_regeneration_witness :
    (0 : ℚ) < 1 ∧
    ((updateResourceLevels [regrowingFood] 1).length = [regrowingFood].length ∧
      ∀ pair ∈ [regrowingFood].zip (updateResourceLevels [regrowingFood] 1),
        (pair.1.type = ResourceType.light → pair.2 = pair.1) ∧
        (pair.1.type ≠ ResourceType.light →
          pair.2.amount = min 100 (pair.1.amount + pair.1.regenerationRate * 1) ∧
          pair.2.id = pair.1.id ∧
          (pair.1.amount < 100 → 0 < pair.1.regenerationRate →
            pair.1.amount < pair.2.amount) ∧
          (pair.1.amount ≤ 100 → 0 ≤ pair.1.regenerationRate →
            pair.1.amount ≤ pair.2.amount))) :=
  ⟨by norm_num, updateResourceLevels_regeneration [regrowingFood] 1 (by norm_num)⟩

/-! ## C5 — catastrophe trigger -/

/-- Environmental parameters as initialised by `initializeWorld`. -/
def initialEnvironmentalParameters : EnvironmentalParameters :=
  { temperature := 0.5
    lightLevel := 0.7
    resourceAbundance := 0.8
    resourceDistribution := 0.5
    foodGrowthRate := 0.005
    waterAvailability := 0.7
    weatherCondition := WeatherCondition.clear
    catastropheChance := 0.001 }

def zeroStats : SimulationStatistics :=
  { populationSize := 0
    averageConsciousness := 0
    maxConsciousness := 0
    averageLifespan := 0
    totalGenerations := 0
    languageComplexity := 0
    socialComplexity := 0
    resourceConsumption := 0
    speciesCount := 0 }

/-- C5: `triggerCatastrophe` rescales every resource amount to
`max 0 (amount·(1 − intensity·0.3))`, appends exactly one extinction timeline
event and exactly one world event-log entry, leaves every other `WorldState`
field unchanged, and at intensity 1 (given the amount-nonnegativity
invariant) every amount becomes exactly 0.7 times its old value. -/
theorem triggerCatastrophe_spec (env : Env) (store : SimulationStore) (ctype : String)
    (intensity : ℚ) :
    (triggerCatastrophe env store ctype intensity).world.resources =
      store.world.resources.map (fun r =>
        { r with amount := max 0 (r.amount * (1 - intensity * 0.3)) }) ∧
    (∃ e : TimelineEvent,
      (triggerCatastrophe env store ctype intensity).timeline = store.timeline ++ [e] ∧
      e.type = TimelineCategory.extinction) ∧
    (∃ w : WorldEvent,
      (triggerCatastrophe env store ctype intensity).world.events = store.world.events ++ [w]) ∧
    (triggerCatastrophe env store ctype intensity).world.agents = store.world.agents ∧
    (triggerCatastrophe env store ctype intensity).world.time = store.world.time ∧
    (triggerCatastrophe env store ctype intensity).world.timeScale = store.world.timeScale ∧
    (triggerCatastrophe env store ctype intensity).world.environmentalParameters =
      store.world.environmentalParameters ∧
    (triggerCatastrophe env store ctype intensity).world.statistics = store.world.statistics ∧
    (triggerCatastrophe env store ctype intensity).world.cellGrid = store.world.cellGrid ∧
    (triggerCatastrophe env store ctype intensity).world.timeElapsed = store.world.timeElapsed ∧
    (triggerCatastrophe env store ctype intensity).world.dayNightCycle =
      store.world.dayNightCycle ∧
    (intensity = 1 → (∀ r ∈ store.world.resources, 0 ≤ r.amount) →
      (triggerCatastrophe env store ctype intensity).world.resources.map (fun r => r.amount) =
        store.world.resources.map (fun r => 0.7 * r.amount)) := by
  refine ⟨rfl, ⟨_, rfl, rfl⟩, ⟨_, rfl⟩, rfl, rfl, rfl, rfl, rfl, rfl, rfl, rfl, ?_⟩
  intro hint hnn
  subst hint
  show (store.world.resources.map (fun r =>
    { r with amount := max 0 (r.amount * (1 - 1 * 0.3)) })).map (fun r => r.amount) =
    store.world.resources.map (fun r => 0.7 * r.amount)
  rw [List.map_map]
  apply List.map_congr_left
  intro r hr
  have h0 := hnn r hr
  simp only [Function.comp_apply]
  show max 0 (r.amount * (1 - 1 * 0.3)) = 0.7 * r.amount
  rw [max_eq_right (by nlinarith)]
  rw [show ((1:ℚ) - 1 * 0.3) = 0.7 by norm_num, mul_comm]

/-- A generic oracle used to instantiate theorems at concrete inputs. -/
def oracleEnv : Env :=
  { rand := fun _ => 1
    uuid := fun n => "uuid-" ++ toString n
    now := 0
    piQ := 0
    cosQ := fun _ => 0
    sinQ := fun _ => 0
    atan2Q := fun _ _ => 0
    sqrtQ := fun _ => 0 }

def catastropheTestWorld : WorldState :=
  { time := 5
    timeScale := 1
    resources := [regrowingFood]
    agents := []
    environmentalParameters := initialEnvironmentalParameters
    events := []
    statistics := zeroStats
    cellGrid := []
    timeElapsed := 0
    dayNightCycle := 0 }

def catastropheStore : SimulationStore :=
  { world := catastropheTestWorld, timeline := [] }

def quakeName : String := "earthquake"

theorem triggerCatastrophe_spec_witness :
    (∀ r ∈ catastropheStore.world.resources, 0 ≤ r.amount) ∧
    (triggerCatastrophe oracleEnv catastropheStore quakeName 1).world.resources.map
      (fun r => r.amount) =
      catastropheStore.world.resources.map (fun r => 0.7 * r.amount) :=
  ⟨by with_unfolding_all decide,
   (triggerCatastrophe_spec oracleEnv catastropheStore quakeName
     1).2.2.2.2.2.2.2.2.2.2.2 rfl (by with_unfolding_all decide)⟩

deriving instance Fintype for MemoryType

/-! ## C2 — the consciousness formula

The `...Spec` definitions below restate the three sub-scores in the words of
the specification (weights outside, explicit formulas); the theorem proves
the code's evaluator equal to the spec formula and bounded in [0,100]. -/

def integrationSpec (agent : Agent) : ℚ :=
  0.4 * (0.3 * agent.traits.curiosity + 0.4 * agent.traits.adaptability +
      0.3 * agent.traits.exploration) +
  0.3 * ((([agent.sensorValues.visualInput.length, agent.sensorValues.auditoryInput.length,
      agent.sensorValues.tactileInput.length, agent.sensorValues.proximity.length].filter
        (fun v => decide (0 < v))).length : ℚ) / 4) +
  0.2 * min 1 ((agent.memory.length : ℚ) / 20) +
  0.1 * ((agent.sensorValues.resourceLevels.food + agent.sensorValues.resourceLevels.water +
      agent.sensorValues.resourceLevels.light) / 3)

def selfModelingSpec (agent : Agent) : ℚ :=
  0.3 * min 1 (((agent.memory.filter (fun m =>
      m.type == MemoryType.action || m.type == MemoryType.feedback)).length : ℚ) / 15) +
  0.3 * (if agent.memory.length = 0 then 0 else
      (((agent.memory.map (fun m => m.type)).dedup.length : ℚ) / 4)) +
  0.2 * min 1 ((agent.generation : ℚ) / 10) +
  0.2 * min 1 (agent.age / agent.lifespan)

def decisionFreedomSpec (agent : Agent) : ℚ :=
  0.3 * min 1 (agent.energy / 100) +
  0.3 * 0.7 +
  0.2 * ((agent.sensorValues.resourceLevels.food + agent.sensorValues.resourceLevels.water +
      agent.sensorValues.resourceLevels.light) / 3) +
  0.2 * max 0 (1 - ((agent.sensorValues.proximity.filter (fun p =>
      p.ptype == ProximityType.agent)).length : ℚ) / 10)

/-- Hypotheses of claim C2: the data-model bounds on the fields the evaluator
reads (the generation is a natural number, hence nonnegative by type). -/
def C2Hyps (a : Agent) : Prop :=
  0 ≤ a.traits.curiosity ∧ a.traits.curiosity ≤ 1 ∧
  0 ≤ a.traits.socialAffinity ∧ a.traits.socialAffinity ≤ 1 ∧
  0 ≤ a.traits.resourceAffinity ∧ a.traits.resourceAffinity ≤ 1 ∧
  0 ≤ a.traits.exploration ∧ a.traits.exploration ≤ 1 ∧
  0 ≤ a.traits.adaptability ∧ a.traits.adaptability ≤ 1 ∧
  0 ≤ a.sensorValues.resourceLevels.food ∧ a.sensorValues.resourceLevels.food ≤ 1 ∧
  0 ≤ a.sensorValues.resourceLevels.water ∧ a.sensorValues.resourceLevels.water ≤ 1 ∧
  0 ≤ a.sensorValues.resourceLevels.light ∧ a.sensorValues.resourceLevels.light ≤ 1 ∧
  0 ≤ a.energy ∧ 0 ≤ a.age ∧ (∀ m ∈ a.memory, 0 ≤ m.intensity) ∧ 0 < a.lifespan

theorem sensor_channel_count_le_four (a : Agent) :
    (([a.sensorValues.visualInput.length, a.sensorValues.auditoryInput.length,
      a.sensorValues.tactileInput.length, a.sensorValues.proximity.length].filter
        (fun v => decide (0 < v))).length : ℚ) ≤ 4 := by
  have h := List.length_filter_le (fun v => decide (0 < v))
    [a.sensorValues.visualInput.length, a.sensorValues.auditoryInput.length,
     a.sensorValues.tactileInput.length, a.sensorValues.proximity.length]
  have h4 : ([a.sensorValues.visualInput.length, a.sensorValues.auditoryInput.length,
      a.sensorValues.tactileInput.length, a.sensorValues.proximity.length]).length = 4 := rfl
  rw [h4] at h
  exact_mod_cast h

theorem informationIntegration_eq (a : Agent) :
    calculateInformationIntegration a = integrationSpec a := by
  have hle : ((([a.sensorValues.visualInput.length, a.sensorValues.auditoryInput.length,
      a.sensorValues.tactileInput.length, a.sensorValues.proximity.length].filter
        (fun v => decide (0 < v))).length : ℚ) / 4) ≤ 1 := by
    rw [div_le_one (by norm_num)]
    exact sensor_channel_count_le_four a
  simp only [calculateInformationIntegration, integrationSpec]
  rw [min_eq_right hle]
  ring

theorem selfModeling_eq (a : Agent) :
    calculateSelfModeling a = selfModelingSpec a := by
  simp only [calculateSelfModeling, selfModelingSpec]
  by_cases h : a.memory.length = 0
  · have h' : ¬ (0 < a.memory.length) := by omega
    rw [if_neg h', if_pos h]
    ring
  · have h' : 0 < a.memory.length := Nat.pos_of_ne_zero h
    rw [if_pos h', if_neg h]
    ring

theorem decisionFreedom_eq (a : Agent) :
    calculateDecisionFreedom a = decisionFreedomSpec a := by
  simp only [calculateDecisionFreedom, decisionFreedomSpec]
  ring

theorem consciousness_eq_spec (a : Agent) :
    calculateConsciousness a =
      min 100 (integrationSpec a * selfModelingSpec a * decisionFreedomSpec a * 100) := by
  simp only [calculateConsciousness, calculateConsciousnessComponents]
  rw [informationIntegration_eq, selfModeling_eq, decisionFreedom_eq]

theorem integrationSpec_bounds (a : Agent) (h : C2Hyps a) :
    0 ≤ integrationSpec a ∧ integrationSpec a ≤ 1 := by
  obtain ⟨hc0, hc1, hs0, hs1, hr0, hr1, he0, he1, ha0, ha1, hf0, hf1, hw0, hw1,
    hl0, hl1, hen, hage, hmem, hlife⟩ := h
  have hq0 : (0:ℚ) ≤ (([a.sensorValues.visualInput.length, a.sensorValues.auditoryInput.length,
      a.sensorValues.tactileInput.length, a.sensorValues.proximity.length].filter
        (fun v => decide (0 < v))).length : ℚ) / 4 := by positivity
  have hq1 := sensor_channel_count_le_four a
  have hm0 : (0:ℚ) ≤ min 1 ((a.memory.length : ℚ) / 20) := le_min (by norm_num) (by positivity)
  have hm1 : min (1:ℚ) ((a.memory.length : ℚ) / 20) ≤ 1 := min_le_left _ _
  unfold integrationSpec
  constructor <;> nlinarith

theorem selfModelingSpec_bounds (a : Agent) (h : C2Hyps a) :
    0 ≤ selfModelingSpec a ∧ selfModelingSpec a ≤ 1 := by
  obtain ⟨hc0, hc1, hs0, hs1, hr0, hr1, he0, he1, ha0, ha1, hf0, hf1, hw0, hw1,
    hl0, hl1, hen, hage, hmem, hlife⟩ := h
  have ha2 : (0:ℚ) ≤ min 1 (((a.memory.filter (fun m =>
      m.type == MemoryType.action || m.type == MemoryType.feedback)).length : ℚ) / 15) :=
    le_min (by norm_num) (by positivity)
  have ha3 : min (1:ℚ) (((a.memory.filter (fun m =>
      m.type == MemoryType.action || m.type == MemoryType.feedback)).length : ℚ) / 15) ≤ 1 :=
    min_le_left _ _
  have hv0 : (0:ℚ) ≤ (if a.memory.length = 0 then 0 else
      (((a.memory.map (fun m => m.type)).dedup.length : ℚ) / 4)) := by
    by_cases h0 : a.memory.length = 0
    · rw [if_pos h0]
    · rw [if_neg h0]
      positivity
  have hv1 : (if a.memory.length = 0 then 0 else
      (((a.memory.map (fun m => m.type)).dedup.length : ℚ) / 4)) ≤ 1 := by
    by_cases h0 : a.memory.length = 0
    · rw [if_pos h0]; norm_num
    · rw [if_neg h0]
      rw [div_le_one (by norm_num)]
      have hnd : ((a.memory.map (fun m => m.type)).dedup).Nodup := List.nodup_dedup _
      have hcard := hnd.length_le_card
      have hc4 : Fintype.card MemoryType = 4 := rfl
      rw [hc4] at hcard
      exact_mod_cast hcard
  have hg0 : (0:ℚ) ≤ min 1 ((a.generation : ℚ) / 10) := le_min (by norm_num) (by positivity)
  have hg1 : min (1:ℚ) ((a.generation : ℚ) / 10) ≤ 1 := min_le_left _ _
  have hage0 : (0:ℚ) ≤ min 1 (a.age / a.lifespan) :=
    le_min (by norm_num) (div_nonneg hage (le_of_lt hlife))
  have hage1 : min (1:ℚ) (a.age / a.lifespan) ≤ 1 := min_le_left _ _
  unfold selfModelingSpec
  constructor <;> nlinarith

theorem decisionFreedomSpec_bounds (a : Agent) (h : C2Hyps a) :
    0 ≤ decisionFreedomSpec a ∧ decisionFreedomSpec a ≤ 1 := by
  obtain ⟨hc0, hc1, hs0, hs1, hr0, hr1, he0, he1, ha0, ha1, hf0, hf1, hw0, hw1,
    hl0, hl1, hen, hage, hmem, hlife⟩ := h
  have he2 : (0:ℚ) ≤ min 1 (a.energy / 100) := le_min (by norm_num) (by positivity)
  have he3 : min (1:ℚ) (a.energy / 100) ≤ 1 := min_le_left _ _
  have hsf0 : (0:ℚ) ≤ max 0 (1 - ((a.sensorValues.proximity.filter (fun p =>
      p.ptype == ProximityType.agent)).length : ℚ) / 10) := le_max_left _ _
  have hsf1 : max (0:ℚ) (1 - ((a.sensorValues.proximity.filter (fun p =>
      p.ptype == ProximityType.agent)).length : ℚ) / 10) ≤ 1 := by
    apply max_le (by norm_num)
    have : (0:ℚ) ≤ ((a.sensorValues.proximity.filter (fun p =>
        p.ptype == ProximityType.agent)).length : ℚ) / 10 := by positivity
    linarith
  unfold decisionFreedomSpec
  constructor <;> nlinarith

/-- C2: for every agent satisfying the data-model bounds,
`calculateConsciousness` equals Integration · SelfModeling · DecisionFreedom
· 100 capped at 100, with the three factors exactly the claimed weighted
combinations, and the result lies in [0,100]. -/
theorem calculateConsciousness_formula (a : Agent) (h : C2Hyps a) :
    calculateConsciousness a =
      min 100 (integrationSpec a * selfModelingSpec a * decisionFreedomSpec a * 100) ∧
    0 ≤ calculateConsciousness a ∧ calculateConsciousness a ≤ 100 := by
  obtain ⟨hI0, hI1⟩ := integrationSpec_bounds a h
  obtain ⟨hS0, hS1⟩ := selfModelingSpec_bounds a h
  obtain ⟨hD0, hD1⟩ := decisionFreedomSpec_bounds a h
  refine ⟨consciousness_eq_spec a, ?_, ?_⟩
  · rw [consciousness_eq_spec a]
    apply le_min (by norm_num)
    have := mul_nonneg (mul_nonneg hI0 hS0) hD0
    nlinarith
  · rw [consciousness_eq_spec a]
    exact min_le_left _ _

/-- A concrete agent used to instantiate hypotheses-bearing theorems. -/
def simpleAgent : Agent :=
  { id := "a1"
    position := { x := 0, y := 0, z := 0 }
    rotation := { x := 0, y := 0, z := 0 }
    velocity := { x := 0, y := 0, z := 0 }
    scale := 1
    color := "#4285F4"
    energy := 50
    age := 10
    lifespan := 1000
    generation := 1
    perceptionRadius := 10
    movementSpeed := 0.05
    sensorValues :=
      { visualInput := []
        auditoryInput := []
        tactileInput := []
        proximity := []
        resourceLevels := { light := 0.2, food := 0.2, water := 0.2 } }
    memory := [{ timestamp := 0, type := MemoryType.action,
                 data := MemoryData.action AgentAction.explore, intensity := 0.5 }]
    reproductionThreshold := 70
    mutationRate := 0.1
    consciousnessValue := 0
    lastReproductionTime := 0
    lastAction := AgentAction.idle
    reproductionCooldown := 100
    traits :=
      { curiosity := 0.7
        socialAffinity := 0.6
        resourceAffinity := 0.5
        exploration := 0.8
        adaptability := 0.6 } }

theorem calculateConsciousness_formula_witness :
    C2Hyps simpleAgent ∧
    (calculateConsciousness simpleAgent =
      min 100 (integrationSpec simpleAgent * selfModelingSpec simpleAgent *
        decisionFreedomSpec simpleAgent * 100) ∧
    0 ≤ calculateConsciousness simpleAgent ∧ calculateConsciousness simpleAgent ≤ 100) :=
  ⟨by unfold C2Hyps; with_unfolding_all decide,
   calculateConsciousness_formula simpleAgent (by unfold C2Hyps; with_unfolding_all decide)⟩

/-! ## C7 — drought strictly lowers food and water (corrected) -/

theorem distributeCell_drought_lt_clear (ep : EnvironmentalParameters) (c : RCell)
    (hw : ep.weatherCondition = WeatherCondition.clear)
    (hrd : 0 < ep.resourceDistribution)
    (hf0 : 0 < c.food * ((ep.resourceAbundance : ℚ) : ℝ))
    (hf1 : c.food * ((ep.resourceAbundance : ℚ) : ℝ) * 0.6 < 1)
    (hwa0 : 0 < c.water * ((ep.resourceAbundance : ℚ) : ℝ))
    (hwa1 : c.water * ((ep.resourceAbundance : ℚ) : ℝ) * 0.3 < 1) :
    (distributeCell { ep with weatherCondition := WeatherCondition.drought } c).food <
      (distributeCell ep c).food ∧
    (distributeCell { ep with weatherCondition := WeatherCondition.drought } c).water <
      (distributeCell ep c).water := by
  have hrdR : (0:ℝ) < ((ep.resourceDistribution : ℚ) : ℝ) := by exact_mod_cast hrd
  unfold distributeCell
  simp only [hw]
  have hfoodD : (0:ℝ) < c.food * ((ep.resourceAbundance : ℚ) : ℝ) * 0.6 := by nlinarith
  have hwaterD : (0:ℝ) < c.water * ((ep.resourceAbundance : ℚ) : ℝ) * 0.3 := by nlinarith
  have hfood_lt : min 1 (c.food * ((ep.resourceAbundance : ℚ) : ℝ) * 0.6) <
      min 1 (c.food * ((ep.resourceAbundance : ℚ) : ℝ) * 1) := by
    rw [min_eq_right (le_of_lt hf1)]
    exact lt_min hf1 (by nlinarith)
  have hwater_lt : min 1 (c.water * ((ep.resourceAbundance : ℚ) : ℝ) * 0.3) <
      min 1 (c.water * ((ep.resourceAbundance : ℚ) : ℝ) * 1) := by
    rw [min_eq_right (le_of_lt hwa1)]
    exact lt_min hwa1 (by nlinarith)
  have hfoodD' : (0:ℝ) ≤ min 1 (c.food * ((ep.resourceAbundance : ℚ) : ℝ) * 0.6) :=
    le_min (by norm_num) (le_of_lt hfoodD)
  have hwaterD' : (0:ℝ) ≤ min 1 (c.water * ((ep.resourceAbundance : ℚ) : ℝ) * 0.3) :=
    le_min (by norm_num) (le_of_lt hwaterD)
  by_cases hb : (0.5 : ℚ) < ep.resourceDistribution
  · rw [if_pos hb, if_pos hb]
    have hA : (0:ℝ) < 1 + (((ep.resourceDistribution : ℚ) : ℝ) - 0.5) * 2 := by
      have h05 : (((0.5:ℚ)):ℝ) < ((ep.resourceDistribution : ℚ) : ℝ) := by exact_mod_cast hb
      have e : (((0.5:ℚ)):ℝ) = (0.5:ℝ) := by norm_num
      rw [e] at h05
      nlinarith
    exact ⟨Real.rpow_lt_rpow hfoodD' hfood_lt hA, Real.rpow_lt_rpow hwaterD' hwater_lt hA⟩
  · rw [if_neg hb, if_neg hb]
    constructor
    · show min 1 (c.food * _ * 0.6) * (1 - (1 - _)) + 0.5 * (1 - _) <
        min 1 (c.food * _ * 1) * (1 - (1 - _)) + 0.5 * (1 - _)
      nlinarith
    · show min 1 (c.water * _ * 0.3) * (1 - (1 - _)) + 0.5 * (1 - _) <
        min 1 (c.water * _ * 1) * (1 - (1 - _)) + 0.5 * (1 - _)
      nlinarith

/-- C7 (amended): for an identical grid and parameter record differing only
in the weather (drought vs clear), the recomputed distribution has strictly
lower food and water in every cell, provided the distribution factor is
positive and each cell's abundance-scaled food and water are positive and
small enough not to saturate both clamps (food·abundance·0.6 < 1 and
water·abundance·0.3 < 1). -/
theorem calculateResourceDistribution_drought_lt_clear (ep : EnvironmentalParameters)
    (grid : List (List RCell))
    (hw : ep.weatherCondition = WeatherCondition.clear)
    (hrd : 0 < ep.resourceDistribution)
    (hcell : ∀ row ∈ grid, ∀ c ∈ row,
      0 < c.food * ((ep.resourceAbundance : ℚ) : ℝ) ∧
      c.food * ((ep.resourceAbundance : ℚ) : ℝ) * 0.6 < 1 ∧
      0 < c.water * ((ep.resourceAbundance : ℚ) : ℝ) ∧
      c.water * ((ep.resourceAbundance : ℚ) : ℝ) * 0.3 < 1) :
    List.Forall₂ (List.Forall₂ (fun cd cc => cd.food < cc.food ∧ cd.water < cc.water))
      (calculateResourceDistribution grid { ep with weatherCondition := WeatherCondition.drought })
      (calculateResourceDistribution grid ep) := by
  unfold calculateResourceDistribution
  rw [List.forall₂_map_left_iff, List.forall₂_map_right_iff, List.forall₂_same]
  intro row hrow
  rw [List.forall₂_map_left_iff, List.forall₂_map_right_iff, List.forall₂_same]
  intro c hc
  obtain ⟨h1, h2, h3, h4⟩ := hcell row hrow c hc
  exact distributeCell_drought_lt_clear ep c hw hrd h1 h2 h3 h4

def zeroCell : RCell := { food := 0, water := 0, light := 0 }

def droughtParams : EnvironmentalParameters :=
  { initialEnvironmentalParameters with weatherCondition := WeatherCondition.drought }

/-- C7 counterexample: for the (valid) one-cell grid whose cell has zero food
and water, drought and clear produce identical food levels (both 0.25 after
the distribution blend), so the claimed strict decrease in every cell fails
for a pair of parameter records identical except for the weather. -/
theorem calculateResourceDistribution_drought_counterexample :
    droughtParams = { initialEnvironmentalParameters with
      weatherCondition := WeatherCondition.drought } ∧
    initialEnvironmentalParameters.weatherCondition = WeatherCondition.clear ∧
    ¬ (List.Forall₂ (List.Forall₂ (fun cd cc => cd.food < cc.food ∧ cd.water < cc.water))
        (calculateResourceDistribution [[zeroCell]] droughtParams)
        (calculateResourceDistribution [[zeroCell]] initialEnvironmentalParameters)) := by
  refine ⟨rfl, rfl, ?_⟩
  intro hF
  unfold calculateResourceDistribution at hF
  simp only [List.map_cons, List.map_nil, List.forall₂_cons, List.Forall₂.nil] at hF
  obtain ⟨⟨⟨hfood, hwater⟩, _⟩, _⟩ := hF
  unfold distributeCell at hfood
  have hb : ¬ ((0.5:ℚ) < droughtParams.resourceDistribution) := by
    unfold droughtParams initialEnvironmentalParameters
    norm_num
  have hb2 : ¬ ((0.5:ℚ) < initialEnvironmentalParameters.resourceDistribution) := by
    unfold initialEnvironmentalParameters
    norm_num
  rw [if_neg hb, if_neg hb2] at hfood
  revert hfood
  unfold droughtParams initialEnvironmentalParameters zeroCell
  norm_num

noncomputable def halfCell : RCell := { food := 1/2, water := 1/2, light := 0 }

theorem calculateResourceDistribution_drought_witness :
    initialEnvironmentalParameters.weatherCondition = WeatherCondition.clear ∧
    (0:ℚ) < initialEnvironmentalParameters.resourceDistribution ∧
    List.Forall₂ (List.Forall₂ (fun cd cc => cd.food < cc.food ∧ cd.water < cc.water))
      (calculateResourceDistribution [[halfCell]]
        { initialEnvironmentalParameters with weatherCondition := WeatherCondition.drought })
      (calculateResourceDistribution [[halfCell]] initialEnvironmentalParameters) :=
  ⟨rfl, by norm_num [initialEnvironmentalParameters],
   calculateResourceDistribution_drought_lt_clear initialEnvironmentalParameters [[halfCell]]
     rfl (by norm_num [initialEnvironmentalParameters])
     (by
       intro row hrow c hc
       simp only [List.mem_singleton] at hrow
       subst hrow
       simp only [List.mem_singleton] at hc
       subst hc
       norm_num [halfCell, initialEnvironmentalParameters])⟩

/-! ## Field-preservation and bound lemmas for the behaviour engine -/

theorem calculateConsciousness_le_100 (a : Agent) : calculateConsciousness a ≤ 100 :=
  min_le_left _ _

theorem refreshConsciousness_fields (a : Agent) :
    (refreshConsciousness a).id = a.id ∧
    (refreshConsciousness a).energy = a.energy ∧
    (refreshConsciousness a).traits = a.traits ∧
    (refreshConsciousness a).memory = a.memory ∧
    (refreshConsciousness a).age = a.age ∧
    (refreshConsciousness a).lifespan = a.lifespan := by
  exact ⟨rfl, rfl, rfl, rfl, rfl, rfl⟩

theorem updateSensorValues_fields (a : Agent) (allAgents : List Agent)
    (resources : List Resource) (cellGrid : List (List Cell)) :
    (updateSensorValues a allAgents resources cellGrid).id = a.id ∧
    (updateSensorValues a allAgents resources cellGrid).energy = a.energy ∧
    (updateSensorValues a allAgents resources cellGrid).traits = a.traits ∧
    (updateSensorValues a allAgents resources cellGrid).memory = a.memory ∧
    (updateSensorValues a allAgents resources cellGrid).age = a.age ∧
    (updateSensorValues a allAgents resources cellGrid).lifespan = a.lifespan ∧
    (updateSensorValues a allAgents resources cellGrid).consciousnessValue =
      a.consciousnessValue := by
  exact ⟨rfl, rfl, rfl, rfl, rfl, rfl, rfl⟩

theorem performAction_fields (env : Env) (a : Agent) (act : AgentAction)
    (resources : List Resource) (deltaTime : ℚ) (s : RS) :
    (performAction env a act resources deltaTime s).1.id = a.id ∧
    (performAction env a act resources deltaTime s).1.traits = a.traits ∧
    (performAction env a act resources deltaTime s).1.age = a.age ∧
    (performAction env a act resources deltaTime s).1.lifespan = a.lifespan ∧
    (performAction env a act resources deltaTime s).1.consciousnessValue =
      a.consciousnessValue := by
  cases act <;>
    (simp only [performAction, addMemory]; repeat' split) <;>
    exact ⟨rfl, rfl, rfl, rfl, rfl⟩

theorem performAction_energy (env : Env) (a : Agent) (act : AgentAction)
    (resources : List Resource) (deltaTime : ℚ) (s : RS)
    (hres : ∀ r ∈ resources, 0 ≤ r.amount) (he : a.energy < 100) :
    a.energy ≤ (performAction env a act resources deltaTime s).1.energy ∧
    (performAction env a act resources deltaTime s).1.energy ≤ 100 := by
  have key : ∀ (amt : ℚ), 0 ≤ amt →
      a.energy ≤ min 100 (a.energy + min amt 10 * 5) ∧
      min 100 (a.energy + min amt 10 * 5) ≤ 100 := by
    intro amt hamt
    refine ⟨le_min (le_of_lt he) ?_, min_le_left _ _⟩
    have h10 : (0:ℚ) ≤ min amt 10 := le_min hamt (by norm_num)
    nlinarith
  cases act
  case consume =>
    simp only [performAction]
    cases hfind : a.sensorValues.proximity.find?
        (fun p => p.ptype == ProximityType.resource) with
    | none => dsimp only; (repeat' split) <;> exact ⟨le_refl _, le_of_lt he⟩
    | some nearbyFood =>
      dsimp only
      cases hidx : resources.findIdx? (fun r => r.id == nearbyFood.id) with
      | none => dsimp only; (repeat' split) <;> exact ⟨le_refl _, le_of_lt he⟩
      | some i =>
        obtain ⟨hi, hp, hmin⟩ := List.findIdx?_eq_some_iff_getElem.mp hidx
        have hmem : resources.getD i dummyResource ∈ resources := by
          rw [List.getD_eq_getElem?_getD, List.getElem?_eq_getElem hi]
          simp only [Option.getD_some]
          exact List.getElem_mem hi
        have hamt := hres _ hmem
        simp only [addMemory]
        (repeat' split) <;> exact key _ hamt
  all_goals
    (simp only [performAction, addMemory]; (repeat' split) <;> exact ⟨le_refl _, le_of_lt he⟩)

theorem performAction_memory_le (env : Env) (a : Agent) (act : AgentAction)
    (resources : List Resource) (deltaTime : ℚ) (s : RS)
    (hmem : a.memory.length ≤ 50) :
    (performAction env a act resources deltaTime s).1.memory.length ≤ 50 := by
  have key : ∀ (b : Agent) (m : Memory), b.memory = a.memory →
      (addMemory b m).memory.length ≤ 50 := by
    intro b m hb
    apply addMemory_length_le
    rw [hb]
    exact hmem
  cases act <;> simp only [performAction] <;> (repeat' split) <;>
    first
      | exact hmem
      | exact key _ _ rfl

theorem performAction_resources_nonneg (env : Env) (a : Agent) (act : AgentAction)
    (resources : List Resource) (deltaTime : ℚ) (s : RS)
    (hres : ∀ r ∈ resources, 0 ≤ r.amount) :
    ∀ r ∈ (performAction env a act resources deltaTime s).2.1, 0 ≤ r.amount := by
  cases act
  case consume =>
    simp only [performAction]
    cases hfind : a.sensorValues.proximity.find?
        (fun p => p.ptype == ProximityType.resource) with
    | none => dsimp only; exact hres
    | some nearbyFood =>
      dsimp only
      cases hidx : resources.findIdx? (fun r => r.id == nearbyFood.id) with
      | none => dsimp only; exact hres
      | some i =>
        dsimp only
        intro r hr
        rcases List.mem_or_eq_of_mem_set hr with hmemr | heq
        · exact hres r hmemr
        · subst heq
          simp only
          have hminle : min (resources.getD i dummyResource).amount 10 ≤
              (resources.getD i dummyResource).amount := min_le_left _ _
          linarith
  all_goals (simp only [performAction]; (repeat' split) <;> exact hres)


theorem liveUpdateAgent_spec (env : Env) (allAgents : List Agent) (cellGrid : List (List Cell))
    (deltaTime : ℚ) (a : Agent) (resources : List Resource) (s : RS)
    (hdt : 0 < deltaTime) (he1 : a.energy ≤ 100) (hmem : a.memory.length ≤ 50)
    (hres : ∀ r ∈ resources, 0 ≤ r.amount) :
    (liveUpdateAgent env allAgents cellGrid deltaTime a resources s).1.id = a.id ∧
    (liveUpdateAgent env allAgents cellGrid deltaTime a resources s).1.traits = a.traits ∧
    a.energy - 0.1 * deltaTime ≤
      (liveUpdateAgent env allAgents cellGrid deltaTime a resources s).1.energy ∧
    (liveUpdateAgent env allAgents cellGrid deltaTime a resources s).1.energy ≤ 100 ∧
    (liveUpdateAgent env allAgents cellGrid deltaTime a resources s).1.consciousnessValue ≤ 100 ∧
    (liveUpdateAgent env allAgents cellGrid deltaTime a resources s).1.memory.length ≤ 50 ∧
    (∀ r ∈ (liveUpdateAgent env allAgents cellGrid deltaTime a resources s).2.1, 0 ≤ r.amount) := by
  set A2 := updateSensorValues (agedAgent a deltaTime) allAgents resources cellGrid with hA2
  set DA := decideAction env A2 allAgents resources s with hDA
  set PA := performAction env A2 DA.1 resources deltaTime DA.2 with hPA
  have hgoal : liveUpdateAgent env allAgents cellGrid deltaTime a resources s =
      (refreshConsciousness (if DA.1 ≠ AgentAction.idle then
        addMemory PA.1
          { timestamp := env.now
            type := MemoryType.action
            data := MemoryData.action DA.1
            intensity := 0.5 }
        else PA.1), PA.2.1, PA.2.2) := rfl
  rw [hgoal]
  have hA2en : A2.energy = a.energy - 0.1 * deltaTime := rfl
  have hA2lt : A2.energy < 100 := by rw [hA2en]; nlinarith
  have hA2mem : A2.memory.length ≤ 50 := hmem
  obtain ⟨hPAen1, hPAen2⟩ :=
    performAction_energy env A2 DA.1 resources deltaTime DA.2 hres hA2lt
  have hPAmem := performAction_memory_le env A2 DA.1 resources deltaTime DA.2 hA2mem
  obtain ⟨hPid, hPtr, hPage, hPlife, hPcons⟩ :=
    performAction_fields env A2 DA.1 resources deltaTime DA.2
  by_cases hact : DA.1 ≠ AgentAction.idle
  · rw [if_pos hact]
    refine ⟨?_, ?_, ?_, ?_, ?_, ?_, ?_⟩
    · rw [(refreshConsciousness_fields _).1, (addMemory_fields _ _).1, hPid]
      exact rfl
    · rw [(refreshConsciousness_fields _).2.2.1, (addMemory_fields _ _).2.2.1, hPtr]
      exact rfl
    · rw [(refreshConsciousness_fields _).2.1, (addMemory_fields _ _).2.1]
      rw [hA2en] at hPAen1
      exact hPAen1
    · rw [(refreshConsciousness_fields _).2.1, (addMemory_fields _ _).2.1]
      exact hPAen2
    · exact calculateConsciousness_le_100 _
    · rw [(refreshConsciousness_fields _).2.2.2.1]
      exact addMemory_length_le _ _ hPAmem
    · exact performAction_resources_nonneg env A2 DA.1 resources deltaTime DA.2 hres
  · rw [if_neg hact]
    refine ⟨?_, ?_, ?_, ?_, ?_, ?_, ?_⟩
    · rw [(refreshConsciousness_fields _).1, hPid]
      exact rfl
    · rw [(refreshConsciousness_fields _).2.2.1, hPtr]
      exact rfl
    · rw [(refreshConsciousness_fields _).2.1]
      rw [hA2en] at hPAen1
      exact hPAen1
    · rw [(refreshConsciousness_fields _).2.1]
      exact hPAen2
    · exact calculateConsciousness_le_100 _
    · rw [(refreshConsciousness_fields _).2.2.2.1]
      exact hPAmem
    · exact performAction_resources_nonneg env A2 DA.1 resources deltaTime DA.2 hres

theorem liveUpdateAgent_id_traits (env : Env) (allAgents : List Agent)
    (cellGrid : List (List Cell)) (deltaTime : ℚ) (a : Agent) (resources : List Resource)
    (s : RS) :
    (liveUpdateAgent env allAgents cellGrid deltaTime a resources s).1.id = a.id ∧
    (liveUpdateAgent env allAgents cellGrid deltaTime a resources s).1.traits = a.traits := by
  set A2 := updateSensorValues (agedAgent a deltaTime) allAgents resources cellGrid with hA2
  set DA := decideAction env A2 allAgents resources s with hDA
  set PA := performAction env A2 DA.1 resources deltaTime DA.2 with hPA
  have hgoal : liveUpdateAgent env allAgents cellGrid deltaTime a resources s =
      (refreshConsciousness (if DA.1 ≠ AgentAction.idle then
        addMemory PA.1
          { timestamp := env.now
            type := MemoryType.action
            data := MemoryData.action DA.1
            intensity := 0.5 }
        else PA.1), PA.2.1, PA.2.2) := rfl
  rw [hgoal]
  obtain ⟨hPid, hPtr, hPage, hPlife, hPcons⟩ :=
    performAction_fields env A2 DA.1 resources deltaTime DA.2
  by_cases hact : DA.1 ≠ AgentAction.idle
  · rw [if_pos hact]
    constructor
    · rw [(refreshConsciousness_fields _).1, (addMemory_fields _ _).1, hPid]
      exact rfl
    · rw [(refreshConsciousness_fields _).2.2.1, (addMemory_fields _ _).2.2.1, hPtr]
      exact rfl
  · rw [if_neg hact]
    constructor
    · rw [(refreshConsciousness_fields _).1, hPid]
      exact rfl
    · rw [(refreshConsciousness_fields _).2.2.1, hPtr]
      exact rfl
theorem stepAgent_dead (env : Env) (allAgents : List Agent) (cellGrid : List (List Cell))
    (deltaTime : ℚ) (agent : Agent) (resources : List Resource) (s : RS)
    (h : agent.energy ≤ 0) :
    (stepAgent env allAgents cellGrid deltaTime agent resources s).1 = none ∧
    ∃ ev, (stepAgent env allAgents cellGrid deltaTime agent resources s).2.1 = [ev] ∧
      ev.type = "death" ∧ ev.affectedAgents = [agent.id] := by
  have hst : stepAgent env allAgents cellGrid deltaTime agent resources s =
      (none,
       [{ id := (freshUuid env s).1
          type := "death"
          timestamp := env.now
          duration := 0
          affectedAgents := [agent.id]
          description := "Agent " ++ agent.id ++ " died at age " ++ toString agent.age }],
       resources, (freshUuid env s).2) := by
    simp only [stepAgent, if_pos h]
  rw [hst]
  exact ⟨rfl, _, rfl, rfl, rfl⟩

theorem stepAgent_shape (env : Env) (allAgents : List Agent) (cellGrid : List (List Cell))
    (deltaTime : ℚ) (agent : Agent) (resources : List Resource) (s : RS) :
    ((stepAgent env allAgents cellGrid deltaTime agent resources s).1 = none ∧
      ∃ ev, (stepAgent env allAgents cellGrid deltaTime agent resources s).2.1 = [ev] ∧
        ev.type = "death" ∧ ev.affectedAgents = [agent.id]) ∨
    (∃ a', (stepAgent env allAgents cellGrid deltaTime agent resources s).1 = some a' ∧
      (stepAgent env allAgents cellGrid deltaTime agent resources s).2.1 = [] ∧
      a'.id = agent.id) := by
  by_cases h0 : agent.energy ≤ 0
  · exact Or.inl (stepAgent_dead env allAgents cellGrid deltaTime agent resources s h0)
  · by_cases h1 : (liveUpdateAgent env allAgents cellGrid deltaTime agent resources s).1.lifespan ≤
        (liveUpdateAgent env allAgents cellGrid deltaTime agent resources s).1.age
    · left
      have hst : stepAgent env allAgents cellGrid deltaTime agent resources s =
          (none,
           [{ id := (freshUuid env (liveUpdateAgent env allAgents cellGrid deltaTime agent resources s).2.2).1
              type := "death"
              timestamp := env.now
              duration := 0
              affectedAgents := [agent.id]
              description := "Agent " ++ agent.id ++ " died of old age at " ++
                toString (liveUpdateAgent env allAgents cellGrid deltaTime agent resources s).1.age }],
           (liveUpdateAgent env allAgents cellGrid deltaTime agent resources s).2.1,
           (freshUuid env (liveUpdateAgent env allAgents cellGrid deltaTime agent resources s).2.2).2) := by
        simp only [stepAgent, if_neg h0, if_pos h1]
      rw [hst]
      exact ⟨rfl, _, rfl, rfl, rfl⟩
    · right
      have hst : stepAgent env allAgents cellGrid deltaTime agent resources s =
          (some (liveUpdateAgent env allAgents cellGrid deltaTime agent resources s).1, [],
           (liveUpdateAgent env allAgents cellGrid deltaTime agent resources s).2.1,
           (liveUpdateAgent env allAgents cellGrid deltaTime agent resources s).2.2) := by
        simp only [stepAgent, if_neg h0, if_neg h1]
      rw [hst]
      exact ⟨_, rfl, rfl,
        (liveUpdateAgent_id_traits env allAgents cellGrid deltaTime agent resources s).1⟩

theorem stepAgent_some_inv (env : Env) (allAgents : List Agent) (cellGrid : List (List Cell))
    (deltaTime : ℚ) (agent : Agent) (resources : List Resource) (s : RS)
    (hdt : 0 < deltaTime) (he : agent.energy ≤ 100) (hm : agent.memory.length ≤ 50)
    (hres : ∀ r ∈ resources, 0 ≤ r.amount) :
    (∀ a', (stepAgent env allAgents cellGrid deltaTime agent resources s).1 = some a' →
      -(0.1 * deltaTime) < a'.energy ∧ a'.energy ≤ 100 ∧ a'.consciousnessValue ≤ 100 ∧
      a'.memory.length ≤ 50 ∧ a'.traits = agent.traits) ∧
    (∀ r ∈ (stepAgent env allAgents cellGrid deltaTime agent resources s).2.2.1, 0 ≤ r.amount) := by
  by_cases h0 : agent.energy ≤ 0
  · have hnone := (stepAgent_dead env allAgents cellGrid deltaTime agent resources s h0).1
    constructor
    · intro a' h
      rw [hnone] at h
      simp at h
    · have hst : (stepAgent env allAgents cellGrid deltaTime agent resources s).2.2.1 =
          resources := by
        simp only [stepAgent, if_pos h0]
      rw [hst]
      exact hres
  · obtain ⟨hid, htr, hen1, hen2, hcons, hmem, hresout⟩ :=
      liveUpdateAgent_spec env allAgents cellGrid deltaTime agent resources s hdt he hm hres
    have hagentpos : 0 < agent.energy := lt_of_not_ge h0
    by_cases h1 : (liveUpdateAgent env allAgents cellGrid deltaTime agent resources s).1.lifespan ≤
        (liveUpdateAgent env allAgents cellGrid deltaTime agent resources s).1.age
    · constructor
      · intro a' h
        have hst : (stepAgent env allAgents cellGrid deltaTime agent resources s).1 = none := by
          simp only [stepAgent, if_neg h0, if_pos h1]
        rw [hst] at h
        simp at h
      · have hst : (stepAgent env allAgents cellGrid deltaTime agent resources s).2.2.1 =
            (liveUpdateAgent env allAgents cellGrid deltaTime agent resources s).2.1 := by
          simp only [stepAgent, if_neg h0, if_pos h1]
        rw [hst]
        exact hresout
    · constructor
      · intro a' h
        have hst : (stepAgent env allAgents cellGrid deltaTime agent resources s).1 =
            some (liveUpdateAgent env allAgents cellGrid deltaTime agent resources s).1 := by
          simp only [stepAgent, if_neg h0, if_neg h1]
        rw [hst] at h
        have ha' : (liveUpdateAgent env allAgents cellGrid deltaTime agent resources s).1 = a' := by
          simpa using h
        subst ha'
        refine ⟨?_, hen2, hcons, hmem, htr⟩
        linarith
      · have hst : (stepAgent env allAgents cellGrid deltaTime agent resources s).2.2.1 =
            (liveUpdateAgent env allAgents cellGrid deltaTime agent resources s).2.1 := by
          simp only [stepAgent, if_neg h0, if_neg h1]
        rw [hst]
        exact hresout
/-- The ten interval bounds on the five behavioural traits. -/
def AgentTraitsIn01 (t : AgentTraits) : Prop :=
  0 ≤ t.curiosity ∧ t.curiosity ≤ 1 ∧
  0 ≤ t.socialAffinity ∧ t.socialAffinity ≤ 1 ∧
  0 ≤ t.resourceAffinity ∧ t.resourceAffinity ≤ 1 ∧
  0 ≤ t.exploration ∧ t.exploration ≤ 1 ∧
  0 ≤ t.adaptability ∧ t.adaptability ≤ 1

theorem updateAgentsGo_inv (env : Env) (allAgents : List Agent) (cellGrid : List (List Cell))
    (deltaTime : ℚ) (hdt : 0 < deltaTime) :
    ∀ (l : List Agent) (resources : List Resource) (s : RS),
      (∀ a ∈ l, a.energy ≤ 100 ∧ a.memory.length ≤ 50 ∧ AgentTraitsIn01 a.traits) →
      (∀ r ∈ resources, 0 ≤ r.amount) →
      (∀ b ∈ (updateAgentsGo env allAgents cellGrid deltaTime l resources s).1,
        -(0.1 * deltaTime) < b.energy ∧ b.energy ≤ 100 ∧ b.consciousnessValue ≤ 100 ∧
        b.memory.length ≤ 50 ∧ AgentTraitsIn01 b.traits) ∧
      (∀ r ∈ (updateAgentsGo env allAgents cellGrid deltaTime l resources s).2.2.1,
        0 ≤ r.amount) := by
  intro l
  induction l with
  | nil =>
    intro resources s hl hres
    constructor
    · intro b hb
      simp [updateAgentsGo] at hb
    · intro r hr
      simp only [updateAgentsGo] at hr
      exact hres r hr
  | cons agent rest ih =>
    intro resources s hl hres
    obtain ⟨hsome, hresstep⟩ :=
      stepAgent_some_inv env allAgents cellGrid deltaTime agent resources s hdt
        (hl agent (List.mem_cons_self _ _)).1 (hl agent (List.mem_cons_self _ _)).2.1 hres
    have hrest : ∀ a ∈ rest, a.energy ≤ 100 ∧ a.memory.length ≤ 50 ∧ AgentTraitsIn01 a.traits :=
      fun a ha => hl a (List.mem_cons_of_mem _ ha)
    obtain ⟨ihs, ihr⟩ := ih
      (stepAgent env allAgents cellGrid deltaTime agent resources s).2.2.1
      (stepAgent env allAgents cellGrid deltaTime agent resources s).2.2.2 hrest hresstep
    constructor
    · intro b hb
      simp only [updateAgentsGo] at hb
      rcases hcase : (stepAgent env allAgents cellGrid deltaTime agent resources s).1 with _ | a1
      · rw [hcase] at hb
        dsimp only at hb
        exact ihs b hb
      · rw [hcase] at hb
        dsimp only at hb
        rcases List.mem_cons.mp hb with hba | hbrest
        · subst hba
          obtain ⟨h1, h2, h3, h4, h5⟩ := hsome _ hcase
          exact ⟨h1, h2, h3, h4, h5 ▸ (hl agent (List.mem_cons_self _ _)).2.2⟩
        · exact ihs b hbrest
    · intro r hr
      simp only [updateAgentsGo] at hr
      exact ihr r hr

theorem updateAgentsGo_no_id (env : Env) (allAgents : List Agent) (cellGrid : List (List Cell))
    (deltaTime : ℚ) :
    ∀ (l : List Agent) (resources : List Resource) (s : RS) (x : String),
      (∀ b ∈ l, b.id ≠ x) →
      (∀ b ∈ (updateAgentsGo env allAgents cellGrid deltaTime l resources s).1, b.id ≠ x) ∧
      ((updateAgentsGo env allAgents cellGrid deltaTime l resources s).2.1.countP
        (fun ev => ev.type == "death" && ev.affectedAgents == [x])) = 0 := by
  intro l
  induction l with
  | nil =>
    intro resources s x hl
    constructor
    · intro b hb
      simp [updateAgentsGo] at hb
    · simp [updateAgentsGo]
  | cons agent rest ih =>
    intro resources s x hl
    have hne : agent.id ≠ x := hl agent (List.mem_cons_self _ _)
    have hrest : ∀ b ∈ rest, b.id ≠ x := fun b hb => hl b (List.mem_cons_of_mem _ hb)
    obtain ⟨ihs, ihc⟩ := ih
      (stepAgent env allAgents cellGrid deltaTime agent resources s).2.2.1
      (stepAgent env allAgents cellGrid deltaTime agent resources s).2.2.2 x hrest
    have hstepcount :
        ((stepAgent env allAgents cellGrid deltaTime agent resources s).2.1.countP
          (fun ev => ev.type == "death" && ev.affectedAgents == [x])) = 0 := by
      rcases stepAgent_shape env allAgents cellGrid deltaTime agent resources s with
        ⟨_, ev, hev, _, haff⟩ | ⟨a1, _, hev, _⟩
      · rw [hev]
        simp only [List.countP_cons, List.countP_nil]
        have : (ev.affectedAgents == [x]) = false := by
          rw [beq_eq_false_iff_ne]
          rw [haff]
          intro hc
          apply hne
          injection hc
        simp [this]
      · rw [hev]
        simp
    constructor
    · intro b hb
      simp only [updateAgentsGo] at hb
      rcases hcase : (stepAgent env allAgents cellGrid deltaTime agent resources s).1 with _ | a1
      · rw [hcase] at hb
        dsimp only at hb
        exact ihs b hb
      · rw [hcase] at hb
        dsimp only at hb
        rcases List.mem_cons.mp hb with hba | hbrest
        · subst hba
          rcases stepAgent_shape env allAgents cellGrid deltaTime agent resources s with
            ⟨hnone, _⟩ | ⟨a2, hsome, _, hid⟩
          · rw [hcase] at hnone
            simp at hnone
          · rw [hcase] at hsome
            have hba2 : a2 = b := by simpa using hsome.symm
            rw [← hba2]
            rw [hid]
            exact hne
        · exact ihs b hbrest
    · simp only [updateAgentsGo]
      rw [List.countP_append, hstepcount, ihc]

theorem updateAgentsGo_dead (env : Env) (allAgents : List Agent) (cellGrid : List (List Cell))
    (deltaTime : ℚ) :
    ∀ (l : List Agent) (resources : List Resource) (s : RS) (a : Agent),
      a ∈ l → a.energy ≤ 0 → l.Pairwise (fun u v => u.id ≠ v.id) →
      (∀ b ∈ (updateAgentsGo env allAgents cellGrid deltaTime l resources s).1, b.id ≠ a.id) ∧
      ((updateAgentsGo env allAgents cellGrid deltaTime l resources s).2.1.countP
        (fun ev => ev.type == "death" && ev.affectedAgents == [a.id])) = 1 := by
  intro l
  induction l with
  | nil =>
    intro resources s a ha
    simp at ha
  | cons agent rest ih =>
    intro resources s a ha hdead hpw
    have hpw' := (List.pairwise_cons.mp hpw)
    rcases List.mem_cons.mp ha with haeq | harest
    · subst haeq
      have hnorest : ∀ b ∈ rest, b.id ≠ a.id := by
        intro b hb hc
        exact (hpw'.1 b hb) hc.symm
      obtain ⟨hdnone, ev, hev, hevty, hevaff⟩ :=
        stepAgent_dead env allAgents cellGrid deltaTime a resources s hdead
      obtain ⟨hrs, hrc⟩ := updateAgentsGo_no_id env allAgents cellGrid deltaTime rest
        (stepAgent env allAgents cellGrid deltaTime a resources s).2.2.1
        (stepAgent env allAgents cellGrid deltaTime a resources s).2.2.2 a.id hnorest
      constructor
      · intro b hb
        simp only [updateAgentsGo] at hb
        rw [hdnone] at hb
        dsimp only at hb
        exact hrs b hb
      · simp only [updateAgentsGo]
        rw [List.countP_append, hev, hrc]
        simp only [List.countP_cons, List.countP_nil]
        have h1 : (ev.type == "death") = true := by
          rw [beq_iff_eq]
          exact hevty
        have h2 : (ev.affectedAgents == [a.id]) = true := by
          rw [beq_iff_eq]
          exact hevaff
        simp [h1, h2]
    · have hne : agent.id ≠ a.id := hpw'.1 a harest
      obtain ⟨ihs, ihc⟩ := ih
        (stepAgent env allAgents cellGrid deltaTime agent resources s).2.2.1
        (stepAgent env allAgents cellGrid deltaTime agent resources s).2.2.2
        a harest hdead hpw'.2
      have hstepcount :
          ((stepAgent env allAgents cellGrid deltaTime agent resources s).2.1.countP
            (fun ev => ev.type == "death" && ev.affectedAgents == [a.id])) = 0 := by
        rcases stepAgent_shape env allAgents cellGrid deltaTime agent resources s with
          ⟨_, ev, hev, _, haff⟩ | ⟨a1, _, hev, _⟩
        · rw [hev]
          simp only [List.countP_cons, List.countP_nil]
          have : (ev.affectedAgents == [a.id]) = false := by
            rw [beq_eq_false_iff_ne]
            rw [haff]
            intro hc
            apply hne
            injection hc
          simp [this]
        · rw [hev]
          simp
      constructor
      · intro b hb
        simp only [updateAgentsGo] at hb
        rcases hcase : (stepAgent env allAgents cellGrid deltaTime agent resources s).1 with _ | a1
        · rw [hcase] at hb
          dsimp only at hb
          exact ihs b hb
        · rw [hcase] at hb
          dsimp only at hb
          rcases List.mem_cons.mp hb with hba | hbrest
          · subst hba
            rcases stepAgent_shape env allAgents cellGrid deltaTime agent resources s with
              ⟨hnone, _⟩ | ⟨a2, hsome, _, hid⟩
            · rw [hcase] at hnone
              simp at hnone
            · rw [hcase] at hsome
              have hba2 : a2 = b := by simpa using hsome.symm
              rw [← hba2]
              rw [hid]
              exact hne
          · exact ihs b hbrest
      · simp only [updateAgentsGo]
        rw [List.countP_append, hstepcount, ihc]

/-- C4: an agent with `energy ≤ 0` at the start of a tick (ids pairwise
distinct) is excluded from the survivor list of the agent update pass, and
exactly one death event naming that agent's id is appended. -/
theorem updateAgents_death (env : Env) (agents : List Agent) (resources : List Resource)
    (environmentalParameters : EnvironmentalParameters) (cellGrid : List (List Cell))
    (deltaTime : ℚ) (s : RS) (a : Agent)
    (hpw : agents.Pairwise (fun u v => u.id ≠ v.id)) (ha : a ∈ agents) (hdead : a.energy ≤ 0) :
    (∀ b ∈ (updateAgents env agents resources environmentalParameters cellGrid
        deltaTime s).1.updatedAgents, b.id ≠ a.id) ∧
    (((updateAgents env agents resources environmentalParameters cellGrid
        deltaTime s).1.events).countP
      (fun ev => ev.type == "death" && ev.affectedAgents == [a.id])) = 1 :=
  updateAgentsGo_dead env agents cellGrid deltaTime agents resources s a ha hdead hpw

theorem applyMutation_bounds (env : Env) (mutationRate value factor : ℚ) (s : RS)
    (h0 : 0 ≤ value) (h1 : value ≤ 1) :
    0 ≤ (applyMutation env mutationRate value factor s).1 ∧
    (applyMutation env mutationRate value factor s).1 ≤ 1 := by
  simp only [applyMutation]
  split
  · exact ⟨le_max_left _ _, max_le (by norm_num) (min_le_left _ _)⟩
  · exact ⟨h0, h1⟩

theorem mutateAgent_fields (env : Env) (a : Agent) (s : RS) :
    (mutateAgent env a s).1.id = a.id ∧
    (mutateAgent env a s).1.position = a.position ∧
    (mutateAgent env a s).1.generation = a.generation ∧
    (mutateAgent env a s).1.energy = a.energy ∧
    (mutateAgent env a s).1.memory = a.memory ∧
    (mutateAgent env a s).1.age = a.age ∧
    (mutateAgent env a s).1.lastReproductionTime = a.lastReproductionTime ∧
    (mutateAgent env a s).1.lastAction = a.lastAction := by
  exact ⟨rfl, rfl, rfl, rfl, rfl, rfl, rfl, rfl⟩

theorem mutateAgent_traits_bounds (env : Env) (a : Agent) (s : RS)
    (h : AgentTraitsIn01 a.traits) : AgentTraitsIn01 (mutateAgent env a s).1.traits := by
  obtain ⟨h1, h2, h3, h4, h5, h6, h7, h8, h9, h10⟩ := h
  refine ⟨?_, ?_, ?_, ?_, ?_, ?_, ?_, ?_, ?_, ?_⟩
  · exact (applyMutation_bounds env a.mutationRate a.traits.curiosity 0.2 _ h1 h2).1
  · exact (applyMutation_bounds env a.mutationRate a.traits.curiosity 0.2 _ h1 h2).2
  · exact (applyMutation_bounds env a.mutationRate a.traits.socialAffinity 0.2 _ h3 h4).1
  · exact (applyMutation_bounds env a.mutationRate a.traits.socialAffinity 0.2 _ h3 h4).2
  · exact (applyMutation_bounds env a.mutationRate a.traits.resourceAffinity 0.2 _ h5 h6).1
  · exact (applyMutation_bounds env a.mutationRate a.traits.resourceAffinity 0.2 _ h5 h6).2
  · exact (applyMutation_bounds env a.mutationRate a.traits.exploration 0.2 _ h7 h8).1
  · exact (applyMutation_bounds env a.mutationRate a.traits.exploration 0.2 _ h7 h8).2
  · exact (applyMutation_bounds env a.mutationRate a.traits.adaptability 0.2 _ h9 h10).1
  · exact (applyMutation_bounds env a.mutationRate a.traits.adaptability 0.2 _ h9 h10).2

theorem createOffspring_props (env : Env) (parent1 parent2 : Agent) (s : RS) :
    (createOffspring env parent1 parent2 s).1.generation =
      max parent1.generation parent2.generation + 1 ∧
    (createOffspring env parent1 parent2 s).1.position =
      { x := (parent1.position.x + parent2.position.x) / 2
        y := 0
        z := (parent1.position.z + parent2.position.z) / 2 } ∧
    (createOffspring env parent1 parent2 s).1.energy = 50 ∧
    (createOffspring env parent1 parent2 s).1.memory.length = 1 ∧
    (createOffspring env parent1 parent2 s).1.consciousnessValue ≤ 100 := by
  refine ⟨rfl, rfl, rfl, rfl, ?_⟩
  exact calculateConsciousness_le_100 _

theorem createOffspring_traits_bounds (env : Env) (parent1 parent2 : Agent) (s : RS)
    (h1 : AgentTraitsIn01 parent1.traits) (h2 : AgentTraitsIn01 parent2.traits) :
    AgentTraitsIn01 (createOffspring env parent1 parent2 s).1.traits := by
  obtain ⟨a1, a2, a3, a4, a5, a6, a7, a8, a9, a10⟩ := h1
  obtain ⟨b1, b2, b3, b4, b5, b6, b7, b8, b9, b10⟩ := h2
  have havg : ∀ (u v : ℚ), 0 ≤ u → u ≤ 1 → 0 ≤ v → v ≤ 1 →
      0 ≤ (u + v) / 2 ∧ (u + v) / 2 ≤ 1 := by
    intro u v hu0 hu1 hv0 hv1
    constructor <;> linarith
  have :=
    mutateAgent_traits_bounds env
      { id := (freshUuid env s).1
        position :=
          { x := (parent1.position.x + parent2.position.x) / 2
            y := 0
            z := (parent1.position.z + parent2.position.z) / 2 }
        rotation := { x := 0, y := 0, z := 0 }
        velocity := { x := 0, y := 0, z := 0 }
        scale := 0.7
        color := (blendColors env parent1.color parent2.color (freshUuid env s).2).1
        energy := 50
        age := 0
        lifespan := (parent1.lifespan + parent2.lifespan) / 2 * 1.1
        generation := max parent1.generation parent2.generation + 1
        perceptionRadius := (parent1.perceptionRadius + parent2.perceptionRadius) / 2
        movementSpeed := (parent1.movementSpeed + parent2.movementSpeed) / 2
        sensorValues :=
          { visualInput := []
            auditoryInput := []
            tactileInput := []
            proximity := []
            resourceLevels := { light := 0, food := 0, water := 0 } }
        memory := []
        reproductionThreshold := (parent1.reproductionThreshold + parent2.reproductionThreshold) / 2
        mutationRate := (parent1.mutationRate + parent2.mutationRate) / 2
        consciousnessValue := 0
        lastReproductionTime := 0
        lastAction := AgentAction.idle
        reproductionCooldown := (parent1.reproductionCooldown + parent2.reproductionCooldown) / 2
        traits :=
          { curiosity := (parent1.traits.curiosity + parent2.traits.curiosity) / 2
            socialAffinity := (parent1.traits.socialAffinity + parent2.traits.socialAffinity) / 2
            resourceAffinity := (parent1.traits.resourceAffinity + parent2.traits.resourceAffinity) / 2
            exploration := (parent1.traits.exploration + parent2.traits.exploration) / 2
            adaptability := (parent1.traits.adaptability + parent2.traits.adaptability) / 2 } }
      (blendColors env parent1.color parent2.color (freshUuid env s).2).2
      ⟨(havg _ _ a1 a2 b1 b2).1, (havg _ _ a1 a2 b1 b2).2,
       (havg _ _ a3 a4 b3 b4).1, (havg _ _ a3 a4 b3 b4).2,
       (havg _ _ a5 a6 b5 b6).1, (havg _ _ a5 a6 b5 b6).2,
       (havg _ _ a7 a8 b7 b8).1, (havg _ _ a7 a8 b7 b8).2,
       (havg _ _ a9 a10 b9 b10).1, (havg _ _ a9 a10 b9 b10).2⟩
  exact this

theorem splitFirst_eq {α : Type} (p : α → Bool) :
    ∀ (l : List α) pre b post, splitFirst p l = some (pre, b, post) →
      l = pre ++ b :: post := by
  intro l
  induction l with
  | nil => intro pre b post h; simp [splitFirst] at h
  | cons x xs ih =>
    intro pre b post h
    by_cases hx : p x
    · simp [splitFirst, hx] at h
      obtain ⟨h1, h2, h3⟩ := h
      subst h1; subst h2; subst h3
      simp
    · simp [splitFirst, hx] at h
      cases hsp : splitFirst p xs with
      | none => rw [hsp] at h; simp at h
      | some triple =>
        obtain ⟨pre2, b2, post2⟩ := triple
        rw [hsp] at h
        simp at h
        obtain ⟨h1, h2, h3⟩ := h
        have heq := ih pre2 b2 post2 hsp
        subst h1
        rw [heq, ← h2, ← h3]
        simp

theorem pairUpGo_members (env : Env) (currentTime : ℚ) :
    ∀ (n : ℕ) (l : List Agent), l.length ≤ n → ∀ (s : RS),
      (∀ p ∈ (pairUpGo env currentTime l s).1,
        ∃ a ∈ l, ∃ m : Memory,
          p = addMemory
            { a with lastReproductionTime := currentTime, energy := max 10 (a.energy - 20) } m) ∧
      (∀ o ∈ (pairUpGo env currentTime l s).2.1,
        ∃ a, ∃ b, ∃ s2 : RS, a ∈ l ∧ b ∈ l ∧ o = (createOffspring env a b s2).1) := by
  intro n
  induction n with
  | zero =>
    intro l hl s
    have : l = [] := List.eq_nil_of_length_eq_zero (Nat.le_zero.mp hl)
    subst this
    constructor
    · intro p hp
      simp [pairUpGo] at hp
    · intro o ho
      simp [pairUpGo] at ho
  | succ n ih =>
    intro l hl s
    cases l with
    | nil =>
      constructor
      · intro p hp
        simp [pairUpGo] at hp
      · intro o ho
        simp [pairUpGo] at ho
    | cons agent1 rest =>
      cases hsp : splitFirst (fun agent2 =>
          decide (calculateDistanceSq agent1.position agent2.position ≤ 4)) rest with
      | none =>
        have hrec := ih rest (by simp at hl; omega) s
        constructor
        · intro p hp
          rw [pairUpGo, hsp] at hp
          obtain ⟨a, ha, m, hm⟩ := hrec.1 p hp
          exact ⟨a, List.mem_cons_of_mem _ ha, m, hm⟩
        · intro o ho
          rw [pairUpGo, hsp] at ho
          obtain ⟨a, b, s2, ha, hb, hob⟩ := hrec.2 o ho
          exact ⟨a, b, s2, List.mem_cons_of_mem _ ha, List.mem_cons_of_mem _ hb, hob⟩
      | some triple =>
        obtain ⟨pre, agent2, post⟩ := triple
        have hleq := splitFirst_eq _ rest pre agent2 post hsp
        have hmem2 : agent2 ∈ agent1 :: rest := by
          rw [hleq]
          simp
        have hsub : ∀ x ∈ pre ++ post, x ∈ agent1 :: rest := by
          intro x hx
          rw [hleq]
          rcases List.mem_append.mp hx with h | h
          · simp [h]
          · simp [h]
        have hlen : (pre ++ post).length ≤ n := by
          have := splitFirst_length _ rest pre agent2 post hsp
          simp at hl
          simp [List.length_append]
          omega
        have hrec := ih (pre ++ post) hlen (createOffspring env agent1 agent2 s).2
        constructor
        · intro p hp
          rw [pairUpGo, hsp] at hp
          dsimp only at hp
          rcases List.mem_cons.mp hp with h1 | hp2
          · exact ⟨agent1, List.mem_cons_self _ _, _, h1⟩
          · rcases List.mem_cons.mp hp2 with h2 | hp3
            · exact ⟨agent2, hmem2, _, h2⟩
            · obtain ⟨a, ha, m, hm⟩ := hrec.1 p hp3
              exact ⟨a, hsub a ha, m, hm⟩
        · intro o ho
          rw [pairUpGo, hsp] at ho
          dsimp only at ho
          rcases List.mem_cons.mp ho with h1 | ho2
          · exact ⟨agent1, agent2, s, List.mem_cons_self _ _, hmem2, h1⟩
          · obtain ⟨a, b, s2, ha, hb, hob⟩ := hrec.2 o ho2
            exact ⟨a, b, s2, hsub a ha, hsub b hb, hob⟩
theorem reproduceAgents_members (env : Env) (agents : List Agent) (t : ℚ) (s : RS) :
    (∀ x ∈ (reproduceAgents env agents t s).1.1,
      x ∈ agents ∨ ∃ a ∈ agents, ∃ m : Memory,
        x = addMemory
          { a with lastReproductionTime := t, energy := max 10 (a.energy - 20) } m) ∧
    (∀ o ∈ (reproduceAgents env agents t s).1.2,
      ∃ a, ∃ b, ∃ s2 : RS, a ∈ agents ∧ b ∈ agents ∧ o = (createOffspring env a b s2).1) := by
  have hmembers := pairUpGo_members env t
    (agents.filter (fun agent =>
      decide (agent.reproductionThreshold ≤ agent.consciousnessValue) &&
      (agent.lastAction == AgentAction.reproduce) &&
      decide (agent.lastReproductionTime + agent.reproductionCooldown < agent.age))).length
    (agents.filter (fun agent =>
      decide (agent.reproductionThreshold ≤ agent.consciousnessValue) &&
      (agent.lastAction == AgentAction.reproduce) &&
      decide (agent.lastReproductionTime + agent.reproductionCooldown < agent.age)))
    (le_refl _) s
  constructor
  · intro x hx
    have hx' : x ∈ agents.map (fun agent =>
        (((pairUpGo env t (agents.filter (fun agent =>
          decide (agent.reproductionThreshold ≤ agent.consciousnessValue) &&
          (agent.lastAction == AgentAction.reproduce) &&
          decide (agent.lastReproductionTime + agent.reproductionCooldown < agent.age))) s).1).find?
            (fun a => a.id == agent.id)).getD agent) := hx
    obtain ⟨agent, hagent, hxeq⟩ := List.mem_map.mp hx'
    cases hfind : ((pairUpGo env t (agents.filter (fun agent =>
        decide (agent.reproductionThreshold ≤ agent.consciousnessValue) &&
        (agent.lastAction == AgentAction.reproduce) &&
        decide (agent.lastReproductionTime + agent.reproductionCooldown < agent.age))) s).1).find?
          (fun a => a.id == agent.id) with
    | none =>
      left
      rw [hfind] at hxeq
      simp at hxeq
      rw [← hxeq]
      exact hagent
    | some p =>
      right
      rw [hfind] at hxeq
      simp at hxeq
      have hp := List.mem_of_find?_eq_some hfind
      obtain ⟨a, ha, m, hm⟩ := hmembers.1 p hp
      exact ⟨a, (List.mem_filter.mp ha).1, m, by rw [← hxeq]; exact hm⟩
  · intro o ho
    obtain ⟨a, b, s2, ha, hb, hob⟩ := hmembers.2 o ho
    exact ⟨a, b, s2, (List.mem_filter.mp ha).1, (List.mem_filter.mp hb).1, hob⟩

/-- The per-agent data-model invariants of the specification. -/
def AgentInv (a : Agent) : Prop :=
  0 ≤ a.energy ∧ a.energy ≤ 100 ∧
  0 ≤ a.consciousnessValue ∧ a.consciousnessValue ≤ 100 ∧
  a.memory.length ≤ 50 ∧
  AgentTraitsIn01 a.traits ∧
  0 < a.lifespan ∧ 0 ≤ a.age ∧
  0 ≤ a.sensorValues.resourceLevels.food ∧ a.sensorValues.resourceLevels.food ≤ 1 ∧
  0 ≤ a.sensorValues.resourceLevels.water ∧ a.sensorValues.resourceLevels.water ≤ 1 ∧
  0 ≤ a.sensorValues.resourceLevels.light ∧ a.sensorValues.resourceLevels.light ≤ 1

/-- The data-model invariants of a world state: per-agent bounds, id
uniqueness, nonnegative resource amounts, cell levels in [0,1]. -/
def WorldInv (w : WorldState) : Prop :=
  (∀ a ∈ w.agents, AgentInv a) ∧
  w.agents.Pairwise (fun u v => u.id ≠ v.id) ∧
  (∀ r ∈ w.resources, 0 ≤ r.amount) ∧
  (∀ row ∈ w.cellGrid, ∀ c ∈ row,
    0 ≤ c.resources.food ∧ c.resources.food ≤ 1 ∧
    0 ≤ c.resources.water ∧ c.resources.water ≤ 1 ∧
    0 ≤ c.resources.light ∧ c.resources.light ≤ 1)

/-- C1 (amended): for every world satisfying the data-model invariants and
every `deltaTime > 0`, every agent present after one tick (agent update pass
followed by the reproduction pass) has `energy ≤ 100`,
`consciousnessValue ≤ 100`, memory length ≤ 50 and all five traits in [0,1];
but the lower bounds of the claim fail — energy is only bounded below by
`-(0.1 * deltaTime)` (the unclamped passive drain) and consciousness can go
negative with it, as the counterexample shows. -/
theorem tickAgentPasses_bounds (env : Env) (w : WorldState) (deltaTime : ℚ) (s : RS)
    (hinv : WorldInv w) (hdt : 0 < deltaTime) :
    ∀ x ∈ tickAgentPasses env w deltaTime s,
      -(0.1 * deltaTime) < x.energy ∧ x.energy ≤ 100 ∧ x.consciousnessValue ≤ 100 ∧
      x.memory.length ≤ 50 ∧ AgentTraitsIn01 x.traits := by
  obtain ⟨hagents, hpw, hres, hgrid⟩ := hinv
  obtain ⟨hsurv, _⟩ := updateAgentsGo_inv env w.agents w.cellGrid deltaTime hdt w.agents
    w.resources s
    (fun a ha => ⟨(hagents a ha).2.1, (hagents a ha).2.2.2.2.1, (hagents a ha).2.2.2.2.2.1⟩)
    hres
  intro x hx
  have htick : tickAgentPasses env w deltaTime s =
      (reproduceAgents env
        (updateAgents env w.agents w.resources w.environmentalParameters w.cellGrid
          deltaTime s).1.updatedAgents w.time
        (updateAgents env w.agents w.resources w.environmentalParameters w.cellGrid
          deltaTime s).2).1.1 ++
      [] ++
      (reproduceAgents env
        (updateAgents env w.agents w.resources w.environmentalParameters w.cellGrid
          deltaTime s).1.updatedAgents w.time
        (updateAgents env w.agents w.resources w.environmentalParameters w.cellGrid
          deltaTime s).2).1.2 := rfl
  rw [htick] at hx
  have hsurv' : ∀ b ∈ (updateAgents env w.agents w.resources w.environmentalParameters
      w.cellGrid deltaTime s).1.updatedAgents,
      -(0.1 * deltaTime) < b.energy ∧ b.energy ≤ 100 ∧ b.consciousnessValue ≤ 100 ∧
      b.memory.length ≤ 50 ∧ AgentTraitsIn01 b.traits := hsurv
  obtain ⟨hpar, hoff⟩ := reproduceAgents_members env
    (updateAgents env w.agents w.resources w.environmentalParameters w.cellGrid
      deltaTime s).1.updatedAgents w.time
    (updateAgents env w.agents w.resources w.environmentalParameters w.cellGrid
      deltaTime s).2
  rcases List.mem_append.mp hx with hx1 | hx2
  · rcases List.mem_append.mp hx1 with hxr | hxe
    · rcases hpar x hxr with hxin | ⟨a, ha, m, hm⟩
      · exact hsurv' x hxin
      · obtain ⟨hb1, hb2, hb3, hb4, hb5⟩ := hsurv' a ha
        have hen : x.energy = max 10 (a.energy - 20) := by
          rw [hm, (addMemory_fields _ _).2.1]
        have hcons : x.consciousnessValue = a.consciousnessValue := by
          rw [hm, (addMemory_fields _ _).2.2.2.1]
        have htraits : x.traits = a.traits := by
          rw [hm, (addMemory_fields _ _).2.2.1]
        have hmeml : x.memory.length ≤ 50 := by
          rw [hm]
          exact addMemory_length_le _ _ hb4
        refine ⟨?_, ?_, ?_, hmeml, ?_⟩
        · rw [hen]
          have h10 : (10:ℚ) ≤ max 10 (a.energy - 20) := le_max_left _ _
          nlinarith
        · rw [hen]
          apply max_le (by norm_num)
          linarith
        · rw [hcons]
          exact hb3
        · rw [htraits]
          exact hb5
    · simp at hxe
  · obtain ⟨a, b, s2, ha, hb, hob⟩ := hoff x hx2
    obtain ⟨ha1, ha2, ha3, ha4, ha5⟩ := hsurv' a ha
    obtain ⟨hc1, hc2, hc3, hc4, hc5⟩ := hsurv' b hb
    obtain ⟨hgen, hpos, hen, hmeml, hcons⟩ := createOffspring_props env a b s2
    refine ⟨?_, ?_, ?_, ?_, ?_⟩
    · rw [hob, hen]
      nlinarith
    · rw [hob, hen]
      norm_num
    · rw [hob]
      exact hcons
    · rw [hob, hmeml]
      norm_num
    · rw [hob]
      exact createOffspring_traits_bounds env a b s2 ha5 hc5

/-! ## C3 — reproduction of a ready pair at a shared position -/

theorem calculateDistanceSq_self (v : Vector3D) : calculateDistanceSq v v = 0 := by
  simp [calculateDistanceSq]

theorem pairUpGo_nil (env : Env) (t : ℚ) (s : RS) : pairUpGo env t [] s = ([], [], s) := by
  rw [pairUpGo]

/-- C3: for a list of exactly two distinct-id agents at the same position with
`position.y = 0`, each with consciousness at or above its reproduction
threshold, `lastAction = reproduce`, and age beyond
`lastReproductionTime + reproductionCooldown`, the reproduction pass at time
`t` yields exactly one offspring with generation `max g1 g2 + 1` and the
shared parent position; both parents get energy `max 10 (energy - 20)` and
`lastReproductionTime = t`.  (The `y = 0` hypothesis is an amendment: the
source writes `y: 0` into the offspring position, so for parents sharing a
position with `y ≠ 0` the offspring position differs from theirs.) -/
theorem reproduceAgents_pair (env : Env) (t : ℚ) (s : RS) (p1 p2 : Agent)
    (hpos : p1.position = p2.position)
    (hy : p1.position.y = 0)
    (hids : p1.id ≠ p2.id)
    (h1c : p1.reproductionThreshold ≤ p1.consciousnessValue)
    (h1a : p1.lastAction = AgentAction.reproduce)
    (h1t : p1.lastReproductionTime + p1.reproductionCooldown < p1.age)
    (h2c : p2.reproductionThreshold ≤ p2.consciousnessValue)
    (h2a : p2.lastAction = AgentAction.reproduce)
    (h2t : p2.lastReproductionTime + p2.reproductionCooldown < p2.age) :
    ∃ o q1 q2,
      (reproduceAgents env [p1, p2] t s).1.2 = [o] ∧
      o.generation = max p1.generation p2.generation + 1 ∧
      o.position = p1.position ∧
      (reproduceAgents env [p1, p2] t s).1.1 = [q1, q2] ∧
      q1.id = p1.id ∧ q1.energy = max 10 (p1.energy - 20) ∧ q1.lastReproductionTime = t ∧
      q2.id = p2.id ∧ q2.energy = max 10 (p2.energy - 20) ∧ q2.lastReproductionTime = t := by
  have hb1 : (decide (p1.reproductionThreshold ≤ p1.consciousnessValue) &&
      (p1.lastAction == AgentAction.reproduce) &&
      decide (p1.lastReproductionTime + p1.reproductionCooldown < p1.age)) = true := by
    simp [h1c, h1a, h1t]
  have hb2 : (decide (p2.reproductionThreshold ≤ p2.consciousnessValue) &&
      (p2.lastAction == AgentAction.reproduce) &&
      decide (p2.lastReproductionTime + p2.reproductionCooldown < p2.age)) = true := by
    simp [h2c, h2a, h2t]
  have hfilter : [p1, p2].filter (fun agent =>
      decide (agent.reproductionThreshold ≤ agent.consciousnessValue) &&
      (agent.lastAction == AgentAction.reproduce) &&
      decide (agent.lastReproductionTime + agent.reproductionCooldown < agent.age)) =
      [p1, p2] := by
    simp only [List.filter_cons, hb1, hb2, if_pos, List.filter_nil]
  have hdist : calculateDistanceSq p1.position p2.position ≤ 4 := by
    rw [hpos, calculateDistanceSq_self]; norm_num
  have hsp : splitFirst (fun agent2 =>
      decide (calculateDistanceSq p1.position agent2.position ≤ 4)) [p2] =
      some ([], p2, []) := by
    simp [splitFirst, hdist]
  have hpu : pairUpGo env t [p1, p2] s =
      ((addMemory
          { p1 with
              lastReproductionTime := t
              energy := max 10 (p1.energy - 20) }
          { timestamp := t
            type := MemoryType.action
            data := MemoryData.reproduceData p2.id (createOffspring env p1 p2 s).1.id
            intensity := 0.9 }) ::
       (addMemory
          { p2 with
              lastReproductionTime := t
              energy := max 10 (p2.energy - 20) }
          { timestamp := t
            type := MemoryType.action
            data := MemoryData.reproduceData p1.id (createOffspring env p1 p2 s).1.id
            intensity := 0.9 }) ::
       (pairUpGo env t ([] ++ []) (createOffspring env p1 p2 s).2).1,
       (createOffspring env p1 p2 s).1 ::
         (pairUpGo env t ([] ++ []) (createOffspring env p1 p2 s).2).2.1,
       (pairUpGo env t ([] ++ []) (createOffspring env p1 p2 s).2).2.2) := by
    rw [pairUpGo, hsp]
  rw [show ([] ++ [] : List Agent) = [] from rfl, pairUpGo_nil] at hpu
  set A1 := addMemory
      { p1 with
          lastReproductionTime := t
          energy := max 10 (p1.energy - 20) }
      { timestamp := t
        type := MemoryType.action
        data := MemoryData.reproduceData p2.id (createOffspring env p1 p2 s).1.id
        intensity := 0.9 } with hA1
  set A2 := addMemory
      { p2 with
          lastReproductionTime := t
          energy := max 10 (p2.energy - 20) }
      { timestamp := t
        type := MemoryType.action
        data := MemoryData.reproduceData p1.id (createOffspring env p1 p2 s).1.id
        intensity := 0.9 } with hA2
  have hA1id : A1.id = p1.id := by
    rw [hA1, (addMemory_fields _ _).1]
  have hA2id : A2.id = p2.id := by
    rw [hA2, (addMemory_fields _ _).1]
  have hfind1 : [A1, A2].find? (fun a => a.id == p1.id) = some A1 := by
    simp [List.find?, hA1id]
  have hfind2 : [A1, A2].find? (fun a => a.id == p2.id) = some A2 := by
    have hne : (A1.id == p2.id) = false := by
      rw [hA1id]; exact beq_eq_false_iff_ne.mpr hids
    simp [List.find?, hne, hA2id]
  refine ⟨(createOffspring env p1 p2 s).1, A1, A2, ?_, ?_, ?_, ?_, ?_, ?_, ?_, ?_, ?_, ?_⟩
  · simp only [reproduceAgents, hfilter, hpu]
  · exact (createOffspring_props env p1 p2 s).1
  · rw [(createOffspring_props env p1 p2 s).2.1]
    have hx : p2.position.x = p1.position.x := by rw [← hpos]
    have hz : p2.position.z = p1.position.z := by rw [← hpos]
    have heta : p1.position = ⟨p1.position.x, p1.position.y, p1.position.z⟩ := rfl
    rw [heta]
    simp only [Vector3D.mk.injEq]
    exact ⟨by rw [hx]; ring, hy.symm, by rw [hz]; ring⟩
  · simp only [reproduceAgents, hfilter, hpu, List.map_cons, List.map_nil,
      hfind1, hfind2, Option.getD_some]
  · exact hA1id
  · rw [hA1, (addMemory_fields _ _).2.1]
  · rw [hA1, (addMemory_fields _ _).2.2.2.2.2.2.2.2]
  · exact hA2id
  · rw [hA2, (addMemory_fields _ _).2.1]
  · rw [hA2, (addMemory_fields _ _).2.2.2.2.2.2.2.2]

/-- Initial oracle counter state. -/
def rs0 : RS := { r := 0, u := 0 }

/-- A reproduction-ready parent placed at height `y = 1`. -/
def cexParentA : Agent :=
  { simpleAgent with
      id := "pa"
      position := { x := 0, y := 1, z := 0 }
      consciousnessValue := 80
      lastAction := AgentAction.reproduce
      age := 200 }

/-- A second ready parent at the same raised position, distinct id. -/
def cexParentB : Agent :=
  { simpleAgent with
      id := "pb"
      position := { x := 0, y := 1, z := 0 }
      consciousnessValue := 80
      lastAction := AgentAction.reproduce
      age := 200 }

/-- Counterexample to C3 as stated: two ready agents sharing the position
`(0, 1, 0)` produce exactly one offspring, but its position (`y` forced to 0
by the source) differs from the shared parent position. -/
theorem reproduceAgents_pair_counterexample :
    (cexParentA.position = cexParentB.position ∧
     cexParentA.reproductionThreshold ≤ cexParentA.consciousnessValue ∧
     cexParentA.lastAction = AgentAction.reproduce ∧
     cexParentA.lastReproductionTime + cexParentA.reproductionCooldown < cexParentA.age ∧
     cexParentB.reproductionThreshold ≤ cexParentB.consciousnessValue ∧
     cexParentB.lastAction = AgentAction.reproduce ∧
     cexParentB.lastReproductionTime + cexParentB.reproductionCooldown < cexParentB.age) ∧
    (reproduceAgents oracleEnv [cexParentA, cexParentB] 5 rs0).1.2.length = 1 ∧
    ∀ o ∈ (reproduceAgents oracleEnv [cexParentA, cexParentB] 5 rs0).1.2,
      o.position ≠ cexParentA.position := by
  with_unfolding_all decide

/-- A ready parent at ground level (`y = 0`). -/
def wParentA : Agent :=
  { simpleAgent with
      id := "wa"
      consciousnessValue := 80
      lastAction := AgentAction.reproduce
      age := 200 }

/-- A second ground-level ready parent with a distinct id. -/
def wParentB : Agent :=
  { simpleAgent with
      id := "wb"
      consciousnessValue := 80
      lastAction := AgentAction.reproduce
      age := 200 }

theorem reproduceAgents_pair_witness :
    ∃ o q1 q2,
      (reproduceAgents oracleEnv [wParentA, wParentB] 7 rs0).1.2 = [o] ∧
      o.generation = max wParentA.generation wParentB.generation + 1 ∧
      o.position = wParentA.position ∧
      (reproduceAgents oracleEnv [wParentA, wParentB] 7 rs0).1.1 = [q1, q2] ∧
      q1.id = wParentA.id ∧ q1.energy = max 10 (wParentA.energy - 20) ∧
      q1.lastReproductionTime = 7 ∧
      q2.id = wParentB.id ∧ q2.energy = max 10 (wParentB.energy - 20) ∧
      q2.lastReproductionTime = 7 :=
  reproduceAgents_pair oracleEnv 7 rs0 wParentA wParentB
    (by with_unfolding_all decide) (by with_unfolding_all decide)
    (by with_unfolding_all decide) (by with_unfolding_all decide) rfl
    (by with_unfolding_all decide) (by with_unfolding_all decide) rfl
    (by with_unfolding_all decide)

/-! ## C1 — per-tick agent invariants (corrected) -/

/-- A valid agent with little energy and a long lifespan; a huge `deltaTime`
drives its energy and consciousness far negative within one tick. -/
def counterAgent : Agent :=
  { simpleAgent with
      id := "c1"
      energy := 1
      age := 0
      lifespan := 20000
      memory := []
      sensorValues :=
        { visualInput := []
          auditoryInput := []
          tactileInput := []
          proximity := []
          resourceLevels := { light := 0, food := 0, water := 0 } }
      traits :=
        { curiosity := 0.5
          socialAffinity := 0.5
          resourceAffinity := 0.5
          exploration := 0.5
          adaptability := 0.5 } }

/-- A world satisfying all data-model invariants holding just `counterAgent`. -/
def counterWorld : WorldState :=
  { time := 0
    timeScale := 1
    resources := []
    agents := [counterAgent]
    environmentalParameters := initialEnvironmentalParameters
    events := []
    statistics := zeroStats
    cellGrid := []
    timeElapsed := 0
    dayNightCycle := 0 }

/-- Counterexample to C1 as stated: an invariant-satisfying world and
`deltaTime = 10000 > 0` after whose tick the surviving agent has strictly
negative energy and strictly negative consciousness (the passive energy
drain `0.1 * deltaTime` is unclamped below, and the consciousness formula
multiplies the negative energy term through). -/
theorem tickAgentPasses_bounds_counterexample :
    WorldInv counterWorld ∧ (0:ℚ) < 10000 ∧
    ∃ a ∈ tickAgentPasses oracleEnv counterWorld 10000 rs0,
      a.energy < 0 ∧ a.consciousnessValue < 0 := by
  refine ⟨?_, by norm_num, ?_⟩
  · unfold WorldInv AgentInv AgentTraitsIn01
    with_unfolding_all decide
  · with_unfolding_all decide

/-- An invariant-satisfying world holding `simpleAgent`. -/
def witnessWorld : WorldState :=
  { counterWorld with agents := [simpleAgent] }

theorem tickAgentPasses_bounds_witness :
    (tickAgentPasses oracleEnv witnessWorld 1 rs0).Forall (fun x =>
      -(0.1 * 1) < x.energy ∧ x.energy ≤ 100 ∧ x.consciousnessValue ≤ 100 ∧
      x.memory.length ≤ 50 ∧ AgentTraitsIn01 x.traits) :=
  List.forall_iff_forall_mem.mpr
    (tickAgentPasses_bounds oracleEnv witnessWorld 1 rs0
      (by unfold WorldInv AgentInv AgentTraitsIn01; with_unfolding_all decide)
      (by norm_num))

/-! ## C4 — death handling witness -/

/-- An agent whose energy is exactly 0 at the start of the tick. -/
def deadAgent : Agent :=
  { simpleAgent with id := "dead", energy := 0 }

theorem updateAgents_death_witness :
    ((updateAgents oracleEnv [deadAgent] [] initialEnvironmentalParameters []
        1 rs0).1.updatedAgents).Forall (fun b => b.id ≠ deadAgent.id) ∧
    (((updateAgents oracleEnv [deadAgent] [] initialEnvironmentalParameters []
        1 rs0).1.events).countP
      (fun ev => ev.type == "death" && ev.affectedAgents == [deadAgent.id])) = 1 :=
  ⟨List.forall_iff_forall_mem.mpr
    (updateAgents_death oracleEnv [deadAgent] [] initialEnvironmentalParameters [] 1 rs0
      deadAgent (by simp) (by simp) (by with_unfolding_all decide)).1,
   (updateAgents_death oracleEnv [deadAgent] [] initialEnvironmentalParameters [] 1 rs0
      deadAgent (by simp) (by simp) (by with_unfolding_all decide)).2⟩
